import Mathlib

/-! Shallow embedding of the jCodecs wasm bridge layer (avif_dec.cpp,
avif_enc.cpp, jxl_dec.cpp, jxl_enc.cpp).  The libavif / libjxl backends are
external components consumed through their C APIs; each pipeline model
therefore takes a behavior record describing the outcomes the backend
produces during that one call (per-stage result codes, the parsed image
fields, allocation outcomes).  The bridge logic itself - input validation,
parameter mapping, metadata normalization, control flow, buffer handling -
is translated directly from the source files.  Pointers are modelled as
natural numbers (0 = null); owned byte buffers are modelled by their
contents (a list of byte values) next to the reported size.  Timing fields
are omitted: they carry wall-clock measurements with no logical content. -/

namespace JCodecs

/-- The spec's HDR detection rule, stated once so that both backends can be
compared against the same function: HDR iff the reported transfer function
is PQ or HLG, or the sample depth exceeds 8. -/
def hdrRule (tf : String) (depth : Nat) : Bool :=
  (tf == "pq" || tf == "hlg") || decide (8 < depth)

namespace Avif

/-- CICP code points used by avif.h; the enum values are the standard
coding-independent code points, reproduced here as plain naturals. -/
def AVIF_COLOR_PRIMARIES_BT709 : Nat := 1

def AVIF_COLOR_PRIMARIES_BT470M : Nat := 4

def AVIF_COLOR_PRIMARIES_BT470BG : Nat := 5

def AVIF_COLOR_PRIMARIES_BT601 : Nat := 6

def AVIF_COLOR_PRIMARIES_SMPTE240 : Nat := 7

def AVIF_COLOR_PRIMARIES_GENERIC_FILM : Nat := 8

def AVIF_COLOR_PRIMARIES_BT2020 : Nat := 9

def AVIF_COLOR_PRIMARIES_XYZ : Nat := 10

def AVIF_COLOR_PRIMARIES_SMPTE431 : Nat := 11

def AVIF_COLOR_PRIMARIES_SMPTE432 : Nat := 12

def AVIF_COLOR_PRIMARIES_EBU3213 : Nat := 22

def AVIF_TRANSFER_CHARACTERISTICS_BT709 : Nat := 1

def AVIF_TRANSFER_CHARACTERISTICS_BT470M : Nat := 4

def AVIF_TRANSFER_CHARACTERISTICS_BT470BG : Nat := 5

def AVIF_TRANSFER_CHARACTERISTICS_BT601 : Nat := 6

def AVIF_TRANSFER_CHARACTERISTICS_SMPTE240 : Nat := 7

def AVIF_TRANSFER_CHARACTERISTICS_LINEAR : Nat := 8

def AVIF_TRANSFER_CHARACTERISTICS_LOG100 : Nat := 9

def AVIF_TRANSFER_CHARACTERISTICS_LOG100_SQRT10 : Nat := 10

def AVIF_TRANSFER_CHARACTERISTICS_IEC61966 : Nat := 11

def AVIF_TRANSFER_CHARACTERISTICS_BT1361 : Nat := 12

def AVIF_TRANSFER_CHARACTERISTICS_SRGB : Nat := 13

def AVIF_TRANSFER_CHARACTERISTICS_BT2020_10BIT : Nat := 14

def AVIF_TRANSFER_CHARACTERISTICS_BT2020_12BIT : Nat := 15

def AVIF_TRANSFER_CHARACTERISTICS_PQ : Nat := 16

def AVIF_TRANSFER_CHARACTERISTICS_SMPTE428 : Nat := 17

def AVIF_TRANSFER_CHARACTERISTICS_HLG : Nat := 18

def AVIF_MATRIX_COEFFICIENTS_IDENTITY : Nat := 0

def AVIF_MATRIX_COEFFICIENTS_BT709 : Nat := 1

def AVIF_MATRIX_COEFFICIENTS_FCC : Nat := 4

def AVIF_MATRIX_COEFFICIENTS_BT470BG : Nat := 5

def AVIF_MATRIX_COEFFICIENTS_BT601 : Nat := 6

def AVIF_MATRIX_COEFFICIENTS_SMPTE240 : Nat := 7

def AVIF_MATRIX_COEFFICIENTS_YCGCO : Nat := 8

def AVIF_MATRIX_COEFFICIENTS_BT2020_NCL : Nat := 9

def AVIF_MATRIX_COEFFICIENTS_BT2020_CL : Nat := 10

def AVIF_MATRIX_COEFFICIENTS_SMPTE2085 : Nat := 11

def AVIF_MATRIX_COEFFICIENTS_CHROMA_DERIVED_NCL : Nat := 12

def AVIF_MATRIX_COEFFICIENTS_CHROMA_DERIVED_CL : Nat := 13

def AVIF_MATRIX_COEFFICIENTS_ICTCP : Nat := 14

def AVIF_PIXEL_FORMAT_YUV444 : Nat := 1

def AVIF_PIXEL_FORMAT_YUV422 : Nat := 2

def AVIF_PIXEL_FORMAT_YUV420 : Nat := 3

def AVIF_PIXEL_FORMAT_YUV400 : Nat := 4

def AVIF_RANGE_FULL : Nat := 1

/-- avif.h defines AVIF_QUALITY_LOSSLESS as 100, the exact lossless
sentinel on libavif's 0-100 quality scale. -/
def AVIF_QUALITY_LOSSLESS : Int := 100

/-- colorPrimariesToString from avif_dec.cpp (the C switch rendered as an
if-chain over the enum code). -/
def colorPrimariesToString (primaries : Nat) : String :=
  if primaries = AVIF_COLOR_PRIMARIES_BT709 then "bt709"
  else if primaries = AVIF_COLOR_PRIMARIES_BT470M then "bt470m"
  else if primaries = AVIF_COLOR_PRIMARIES_BT470BG then "bt470bg"
  else if primaries = AVIF_COLOR_PRIMARIES_BT601 then "bt601"
  else if primaries = AVIF_COLOR_PRIMARIES_SMPTE240 then "smpte240"
  else if primaries = AVIF_COLOR_PRIMARIES_GENERIC_FILM then "generic-film"
  else if primaries = AVIF_COLOR_PRIMARIES_BT2020 then "bt2020"
  else if primaries = AVIF_COLOR_PRIMARIES_XYZ then "xyz"
  else if primaries = AVIF_COLOR_PRIMARIES_SMPTE431 then "dci-p3"
  else if primaries = AVIF_COLOR_PRIMARIES_SMPTE432 then "display-p3"
  else if primaries = AVIF_COLOR_PRIMARIES_EBU3213 then "ebu3213"
  else "unknown"

/-- transferToString from avif_dec.cpp. -/
def transferToString (tc : Nat) : String :=
  if tc = AVIF_TRANSFER_CHARACTERISTICS_BT709 then "bt709"
  else if tc = AVIF_TRANSFER_CHARACTERISTICS_BT470M then "bt470m"
  else if tc = AVIF_TRANSFER_CHARACTERISTICS_BT470BG then "bt470bg"
  else if tc = AVIF_TRANSFER_CHARACTERISTICS_BT601 then "bt601"
  else if tc = AVIF_TRANSFER_CHARACTERISTICS_SMPTE240 then "smpte240"
  else if tc = AVIF_TRANSFER_CHARACTERISTICS_LINEAR then "linear"
  else if tc = AVIF_TRANSFER_CHARACTERISTICS_LOG100 then "log100"
  else if tc = AVIF_TRANSFER_CHARACTERISTICS_LOG100_SQRT10 then "log100-sqrt10"
  else if tc = AVIF_TRANSFER_CHARACTERISTICS_IEC61966 then "iec61966"
  else if tc = AVIF_TRANSFER_CHARACTERISTICS_BT1361 then "bt1361"
  else if tc = AVIF_TRANSFER_CHARACTERISTICS_SRGB then "srgb"
  else if tc = AVIF_TRANSFER_CHARACTERISTICS_BT2020_10BIT then "bt2020-10bit"
  else if tc = AVIF_TRANSFER_CHARACTERISTICS_BT2020_12BIT then "bt2020-12bit"
  else if tc = AVIF_TRANSFER_CHARACTERISTICS_PQ then "pq"
  else if tc = AVIF_TRANSFER_CHARACTERISTICS_SMPTE428 then "smpte428"
  else if tc = AVIF_TRANSFER_CHARACTERISTICS_HLG then "hlg"
  else "unknown"

/-- matrixToString from avif_dec.cpp. -/
def matrixToString (mc : Nat) : String :=
  if mc = AVIF_MATRIX_COEFFICIENTS_IDENTITY then "identity"
  else if mc = AVIF_MATRIX_COEFFICIENTS_BT709 then "bt709"
  else if mc = AVIF_MATRIX_COEFFICIENTS_FCC then "fcc"
  else if mc = AVIF_MATRIX_COEFFICIENTS_BT470BG then "bt470bg"
  else if mc = AVIF_MATRIX_COEFFICIENTS_BT601 then "bt601"
  else if mc = AVIF_MATRIX_COEFFICIENTS_SMPTE240 then "smpte240"
  else if mc = AVIF_MATRIX_COEFFICIENTS_YCGCO then "ycgco"
  else if mc = AVIF_MATRIX_COEFFICIENTS_BT2020_NCL then "bt2020-ncl"
  else if mc = AVIF_MATRIX_COEFFICIENTS_BT2020_CL then "bt2020-cl"
  else if mc = AVIF_MATRIX_COEFFICIENTS_SMPTE2085 then "smpte2085"
  else if mc = AVIF_MATRIX_COEFFICIENTS_CHROMA_DERIVED_NCL then "chroma-derived-ncl"
  else if mc = AVIF_MATRIX_COEFFICIENTS_CHROMA_DERIVED_CL then "chroma-derived-cl"
  else if mc = AVIF_MATRIX_COEFFICIENTS_ICTCP then "ictcp"
  else "unknown"

/-- isHDRTransfer from avif_dec.cpp. -/
def isHDRTransfer (tc : Nat) : Bool :=
  decide (tc = AVIF_TRANSFER_CHARACTERISTICS_PQ) ||
    decide (tc = AVIF_TRANSFER_CHARACTERISTICS_HLG)

/-- The fields of the backend's avifImage that the bridge reads after
avifDecoderParse / avifDecoderNextImage.  hasAlphaPlane models
`alphaPlane != nullptr`; icc models the icc.data/icc.size pair as the byte
list the backend exposes (absent profile = empty list). -/
structure AvifImage where
  width : Nat
  height : Nat
  depth : Nat
  yuvFormat : Nat
  hasAlphaPlane : Bool
  colorPrimaries : Nat
  transferCharacteristics : Nat
  matrixCoefficients : Nat
  yuvRange : Nat
  maxCLL : Nat
  maxPALL : Nat
  icc : List Nat
  deriving DecidableEq

/-- ImageMetadata from avif_dec.cpp.  The malloc'd ICC pointer is modelled
by the copied byte contents (iccProfile) plus the reported size; the
mastering-display float fields are never written by the source (the
extraction path is a stub), so only the presence flag is modelled. -/
structure ImageMetadata where
  colorPrimaries : String
  transferFunction : String
  matrixCoefficients : String
  fullRange : Bool
  maxCLL : Nat
  maxPALL : Nat
  masteringPresent : Bool
  iccProfile : List Nat
  iccProfileSize : Nat
  isHDR : Bool
  deriving DecidableEq

/-- A zero/empty metadata value.  In the C++ source the metadata members of
a freshly declared result are default-initialized (strings empty, scalars
indeterminate); no claim inspects metadata on a path that leaves it
unassigned, so the indeterminate scalars are modelled as zeros. -/
def emptyMetadata : ImageMetadata :=
  { colorPrimaries := "", transferFunction := "", matrixCoefficients := ""
    fullRange := false, maxCLL := 0, maxPALL := 0, masteringPresent := false
    iccProfile := [], iccProfileSize := 0, isHDR := false }

/-- extractMetadata from avif_dec.cpp.  iccMallocOk tells whether the
malloc for the profile copy succeeds; on failure the source zeroes the
pointer and size and carries on. -/
def extractMetadata (image : AvifImage) (iccMallocOk : Bool) : ImageMetadata :=
  { colorPrimaries := colorPrimariesToString image.colorPrimaries
    transferFunction := transferToString image.transferCharacteristics
    matrixCoefficients := matrixToString image.matrixCoefficients
    fullRange := decide (image.yuvRange = AVIF_RANGE_FULL)
    maxCLL := image.maxCLL
    maxPALL := image.maxPALL
    masteringPresent := false
    iccProfile :=
      if 0 < image.icc.length then (if iccMallocOk then image.icc else []) else []
    iccProfileSize :=
      if 0 < image.icc.length then (if iccMallocOk then image.icc.length else 0) else 0
    isHDR := isHDRTransfer image.transferCharacteristics || decide (8 < image.depth) }

/-- DecodeResult from avif_dec.cpp, minus the timing record. -/
structure DecodeResult where
  dataPtr : Nat
  dataSize : Nat
  width : Nat
  height : Nat
  depth : Nat
  channels : Nat
  metadata : ImageMetadata
  error : String
  deriving DecidableEq

/-- ImageInfo from avif_dec.cpp. -/
structure ImageInfo where
  width : Nat
  height : Nat
  depth : Nat
  channels : Nat
  metadata : ImageMetadata
  deriving DecidableEq

/-- Backend outcomes for one avif decode call: stage result codes
(0 = AVIF_RESULT_OK), the image the decoder exposes once parsing succeeds,
the rowBytes chosen by avifRGBImageAllocatePixels, allocation outcomes, and
the avifResultToString rendering of error codes. -/
structure DecodeBehavior where
  createOk : Bool
  ioResult : Nat
  parseResult : Nat
  nextImageResult : Nat
  image : AvifImage
  yuvToRgbResult : Nat
  rowBytes : Nat
  iccMallocOk : Bool
  outMalloc : Option Nat
  resultStr : Nat → String

/-- decode from avif_dec.cpp.  The result starts with dataPtr/dataSize/
width/height/channels zeroed and depth = 8, exactly as the source assigns
before creating the decoder; each backend stage failure returns with a
stage-tagged error. -/
def decode (b : DecodeBehavior) (targetBitDepth : Int) : DecodeResult :=
  let r0 : DecodeResult :=
    { dataPtr := 0, dataSize := 0, width := 0, height := 0, depth := 8
      channels := 0, metadata := emptyMetadata, error := "" }
  if ¬ b.createOk then { r0 with error := "Failed to create decoder" }
  else if b.ioResult ≠ 0 then
    { r0 with error := "IO error: " ++ b.resultStr b.ioResult }
  else if b.parseResult ≠ 0 then
    { r0 with error := "Parse error: " ++ b.resultStr b.parseResult }
  else if b.nextImageResult ≠ 0 then
    { r0 with error := "Decode error: " ++ b.resultStr b.nextImageResult }
  else
    let image := b.image
    let colorChannels : Nat := if image.yuvFormat = AVIF_PIXEL_FORMAT_YUV400 then 1 else 3
    let alphaChannel : Nat := if image.hasAlphaPlane then 1 else 0
    let r1 := { r0 with
      width := image.width, height := image.height, depth := image.depth
      channels := colorChannels + alphaChannel
      metadata := extractMetadata image b.iccMallocOk }
    let d0 : Int := if 0 < targetBitDepth then targetBitDepth else (image.depth : Int)
    let d1 : Int := if d0 < 8 then 8 else d0
    let outputDepth : Int := if 16 < d1 then 16 else d1
    if b.yuvToRgbResult ≠ 0 then
      { r1 with error := "YUV to RGB error: " ++ b.resultStr b.yuvToRgbResult }
    else
      let dataSize := b.rowBytes * image.height
      match b.outMalloc with
      | none => { r1 with error := "Failed to allocate output buffer" }
      | some p =>
        { r1 with dataPtr := p, dataSize := dataSize, depth := outputDepth.toNat }

/-- Backend outcomes for one avif getImageInfo call (it stops after
avifDecoderParse, so only the first two stage results matter). -/
structure InfoBehavior where
  createOk : Bool
  ioResult : Nat
  parseResult : Nat
  image : AvifImage
  iccMallocOk : Bool

/-- getImageInfo from avif_dec.cpp.  Failures return the zeroed info value
(this variant has no error field). -/
def getImageInfo (b : InfoBehavior) : ImageInfo :=
  let i0 : ImageInfo :=
    { width := 0, height := 0, depth := 0, channels := 0, metadata := emptyMetadata }
  if ¬ b.createOk then i0
  else if b.ioResult ≠ 0 then i0
  else if b.parseResult ≠ 0 then i0
  else
    let image := b.image
    { width := image.width, height := image.height, depth := image.depth
      channels := (if image.yuvFormat = AVIF_PIXEL_FORMAT_YUV400 then 1 else 3) +
        (if image.hasAlphaPlane then 1 else 0)
      metadata := extractMetadata image b.iccMallocOk }

/-- EncodeOptions from avif_enc.cpp. -/
structure EncodeOptions where
  quality : Int
  qualityAlpha : Int
  speed : Int
  tune : String
  lossless : Bool
  chromaSubsampling : Int
  bitDepth : Int
  colorSpace : String
  transferFunction : String
  maxThreads : Int
  deriving DecidableEq

/-- EncodeResult from avif_enc.cpp, minus timings. -/
structure EncodeResult where
  dataPtr : Nat
  dataSize : Nat
  error : String
  deriving DecidableEq

/-- getColorPrimaries from avif_enc.cpp. -/
def getColorPrimaries (cs : String) : Nat :=
  if cs == "display-p3" || cs == "p3" then AVIF_COLOR_PRIMARIES_SMPTE432
  else if cs == "rec2020" || cs == "bt2020" then AVIF_COLOR_PRIMARIES_BT2020
  else AVIF_COLOR_PRIMARIES_BT709

/-- getTransferCharacteristics from avif_enc.cpp. -/
def getTransferCharacteristics (tf cs : String) : Nat :=
  if tf == "pq" then AVIF_TRANSFER_CHARACTERISTICS_PQ
  else if tf == "hlg" then AVIF_TRANSFER_CHARACTERISTICS_HLG
  else if tf == "linear" then AVIF_TRANSFER_CHARACTERISTICS_LINEAR
  else if cs == "rec2020" || cs == "bt2020" then AVIF_TRANSFER_CHARACTERISTICS_BT2020_10BIT
  else AVIF_TRANSFER_CHARACTERISTICS_SRGB

/-- getMatrixCoefficients from avif_enc.cpp. -/
def getMatrixCoefficients (cs : String) : Nat :=
  if cs == "rec2020" || cs == "bt2020" then AVIF_MATRIX_COEFFICIENTS_BT2020_NCL
  else if cs == "display-p3" || cs == "p3" then AVIF_MATRIX_COEFFICIENTS_BT709
  else AVIF_MATRIX_COEFFICIENTS_BT709

/-- The expected-size computation of avif_enc.cpp: all four factors are
32-bit (uint32_t and int), so the product is taken modulo 2^32 before the
comparison with the supplied buffer length. -/
def expectedSizeU32 (width height channels bytesPerChannel : Nat) : Nat :=
  (width * height * channels * bytesPerChannel) % 2 ^ 32

/-- Arguments handed to avifImageCreate. -/
structure ImageArgs where
  width : Nat
  height : Nat
  depth : Int
  yuvFormat : Nat
  deriving DecidableEq

/-- CICP values assigned onto the avifImage before conversion. -/
structure Cicp where
  colorPrimaries : Nat
  transferCharacteristics : Nat
  matrixCoefficients : Nat
  yuvRange : Nat
  deriving DecidableEq

/-- Values assigned onto the avifEncoder before avifEncoderWrite. -/
structure EncoderCfg where
  maxThreads : Int
  speed : Int
  quality : Int
  qualityAlpha : Int
  deriving DecidableEq

/-- Trace of the calls the encode pipeline makes into the backend; each
field stays none when the pipeline errors out before reaching that call.
Validation failures leave the whole trace empty: no backend object is
constructed. -/
structure BackendCalls where
  imageArgs : Option ImageArgs := none
  cicp : Option Cicp := none
  encoderCfg : Option EncoderCfg := none
  deriving DecidableEq

/-- Backend outcomes for one avif encode call. -/
structure EncodeBehavior where
  imageCreateOk : Bool
  rgbToYuvResult : Nat
  encoderCreateOk : Bool
  writeResult : Nat
  output : List Nat
  outMalloc : Option Nat
  resultStr : Nat → String

/-- The pixel format the avif encode pipeline chooses: the chroma
subsampling switch, overridden to 4:4:4 whenever lossless is set. -/
def chosenYuvFormat (o : EncodeOptions) : Nat :=
  let switchFormat : Nat :=
    if o.chromaSubsampling = 444 then AVIF_PIXEL_FORMAT_YUV444
    else if o.chromaSubsampling = 422 then AVIF_PIXEL_FORMAT_YUV422
    else if o.chromaSubsampling = 400 then AVIF_PIXEL_FORMAT_YUV400
    else AVIF_PIXEL_FORMAT_YUV420
  if o.lossless then AVIF_PIXEL_FORMAT_YUV444 else switchFormat

/-- The output depth the avif encode pipeline clamps into the interval
from 8 to 12. -/
def encodeDepth (o : EncodeOptions) : Int :=
  let d1 : Int := if o.bitDepth < 8 then 8 else o.bitDepth
  if 12 < d1 then 12 else d1

/-- The encoder configuration the avif encode pipeline hands to
avifEncoderWrite. -/
def encoderCfgOf (o : EncodeOptions) : EncoderCfg :=
  { maxThreads := o.maxThreads
    speed := o.speed
    quality := if o.lossless then AVIF_QUALITY_LOSSLESS else o.quality
    qualityAlpha := if o.lossless then AVIF_QUALITY_LOSSLESS else o.qualityAlpha }

/-- Closed form of the backend-call trace of an avif encode run that
reaches the encoder-configuration stage. -/
def fullCalls (w h : Nat) (o : EncodeOptions) : BackendCalls :=
  { imageArgs := some ⟨w, h, encodeDepth o, chosenYuvFormat o⟩
    cicp := some ⟨getColorPrimaries o.colorSpace,
      getTransferCharacteristics o.transferFunction o.colorSpace,
      getMatrixCoefficients o.colorSpace, AVIF_RANGE_FULL⟩
    encoderCfg := some (encoderCfgOf o) }

/-- encode from avif_enc.cpp, returning the result together with the trace
of configuration handed to the backend. -/
def encode (pixelsPtr pixelsSize width height channels : Nat) (inputBitDepth : Int)
    (options : EncodeOptions) (b : EncodeBehavior) : EncodeResult × BackendCalls :=
  let calls0 : BackendCalls := {}
  let err : String → EncodeResult := fun s => { dataPtr := 0, dataSize := 0, error := s }
  if pixelsPtr = 0 ∨ pixelsSize = 0 ∨ width = 0 ∨ height = 0 then
    (err "Invalid input: null pixels or zero dimensions", calls0)
  else if channels ≠ 3 ∧ channels ≠ 4 then
    (err "Invalid channels: must be 3 (RGB) or 4 (RGBA)", calls0)
  else
    let bytesPerChannel : Nat := if 8 < inputBitDepth then 2 else 1
    if pixelsSize < expectedSizeU32 width height channels bytesPerChannel then
      (err "Invalid input: pixel data too small", calls0)
    else
      let yuvFormat : Nat := chosenYuvFormat options
      let outputDepth : Int := encodeDepth options
      let calls1 := { calls0 with
        imageArgs := some ⟨width, height, outputDepth, yuvFormat⟩ }
      if ¬ b.imageCreateOk then (err "Failed to create avifImage", calls1)
      else
        let calls2 := { calls1 with
          cicp := some ⟨getColorPrimaries options.colorSpace,
            getTransferCharacteristics options.transferFunction options.colorSpace,
            getMatrixCoefficients options.colorSpace, AVIF_RANGE_FULL⟩ }
        if b.rgbToYuvResult ≠ 0 then
          (err ("RGB to YUV error: " ++ b.resultStr b.rgbToYuvResult), calls2)
        else if ¬ b.encoderCreateOk then (err "Failed to create encoder", calls2)
        else
          let calls3 := { calls2 with encoderCfg := some (encoderCfgOf options) }
          if b.writeResult ≠ 0 then
            (err ("Encode error: " ++ b.resultStr b.writeResult), calls3)
          else
            match b.outMalloc with
            | none => (err "Failed to allocate output buffer", calls3)
            | some p =>
              ({ dataPtr := p, dataSize := b.output.length, error := "" }, calls3)

end Avif

namespace Jxl

/-- JxlPrimaries enum values from jxl/color_encoding.h. -/
def JXL_PRIMARIES_SRGB : Nat := 1

def JXL_PRIMARIES_2100 : Nat := 9

def JXL_PRIMARIES_P3 : Nat := 11

def JXL_TRANSFER_FUNCTION_709 : Nat := 1

def JXL_TRANSFER_FUNCTION_LINEAR : Nat := 8

def JXL_TRANSFER_FUNCTION_SRGB : Nat := 13

def JXL_TRANSFER_FUNCTION_PQ : Nat := 16

def JXL_TRANSFER_FUNCTION_DCI : Nat := 17

def JXL_TRANSFER_FUNCTION_HLG : Nat := 18

def JXL_TRANSFER_FUNCTION_GAMMA : Nat := 65535

def JXL_WHITE_POINT_D65 : Nat := 1

/-- colorPrimariesToString from jxl_dec.cpp. -/
def colorPrimariesToString (primaries : Nat) : String :=
  if primaries = JXL_PRIMARIES_SRGB then "bt709"
  else if primaries = JXL_PRIMARIES_2100 then "bt2020"
  else if primaries = JXL_PRIMARIES_P3 then "display-p3"
  else "unknown"

/-- transferFunctionToString from jxl_dec.cpp. -/
def transferFunctionToString (tf : Nat) : String :=
  if tf = JXL_TRANSFER_FUNCTION_SRGB then "srgb"
  else if tf = JXL_TRANSFER_FUNCTION_LINEAR then "linear"
  else if tf = JXL_TRANSFER_FUNCTION_PQ then "pq"
  else if tf = JXL_TRANSFER_FUNCTION_HLG then "hlg"
  else if tf = JXL_TRANSFER_FUNCTION_709 then "bt709"
  else if tf = JXL_TRANSFER_FUNCTION_DCI then "dci"
  else if tf = JXL_TRANSFER_FUNCTION_GAMMA then "gamma"
  else "unknown"

/-- isHDRTransfer from jxl_dec.cpp. -/
def isHDRTransfer (tf : Nat) : Bool :=
  decide (tf = JXL_TRANSFER_FUNCTION_PQ) || decide (tf = JXL_TRANSFER_FUNCTION_HLG)

/-- The JxlBasicInfo fields the bridge reads. -/
structure BasicInfo where
  xsize : Nat
  ysize : Nat
  bitsPerSample : Nat
  exponentBitsPerSample : Nat
  numColorChannels : Nat
  alphaBits : Nat
  haveAnimation : Bool
  deriving DecidableEq

/-- The JxlColorEncoding fields the bridge reads or writes. -/
structure ColorEncoding where
  primaries : Nat
  whitePoint : Nat
  transferFunction : Nat
  deriving DecidableEq

/-- ImageMetadata from jxl_dec.cpp; as on the avif side, the ICC pointer is
modelled by the copied bytes plus size, and the never-written mastering
floats by the presence flag alone. -/
structure ImageMetadata where
  colorPrimaries : String
  transferFunction : String
  matrixCoefficients : String
  fullRange : Bool
  maxCLL : Nat
  maxPALL : Nat
  masteringPresent : Bool
  iccProfile : List Nat
  iccProfileSize : Nat
  isHDR : Bool
  isAnimated : Bool
  frameCount : Nat
  deriving DecidableEq

/-- DecodeResult from jxl_dec.cpp, minus timings. -/
structure DecodeResult where
  dataPtr : Nat
  dataSize : Nat
  width : Nat
  height : Nat
  depth : Nat
  channels : Nat
  dataType : String
  metadata : ImageMetadata
  error : String
  deriving DecidableEq

/-- ImageInfo from jxl_dec.cpp. -/
structure ImageInfo where
  width : Nat
  height : Nat
  depth : Nat
  channels : Nat
  metadata : ImageMetadata
  deriving DecidableEq

/-- The all-zero metadata produced by value-initialization in C++. -/
def emptyMetadata : ImageMetadata :=
  { colorPrimaries := "", transferFunction := "", matrixCoefficients := ""
    fullRange := false, maxCLL := 0, maxPALL := 0, masteringPresent := false
    iccProfile := [], iccProfileSize := 0, isHDR := false
    isAnimated := false, frameCount := 0 }

/-- The value-initialized DecodeResult of the decode function (all scalar
fields zero, strings empty). -/
def emptyDecodeResult : DecodeResult :=
  { dataPtr := 0, dataSize := 0, width := 0, height := 0, depth := 0
    channels := 0, dataType := "", metadata := emptyMetadata, error := "" }

/-- The freshly default-constructed errorResult the unsupported-float
branch returns: its std::string members are empty and its error string is
set, but every scalar member is left indeterminate by the C++
default-initialization; the indeterminate values are taken from the junk
record the behavior supplies, so nothing can be proved about them. -/
def unsupportedFloatResult (junk : DecodeResult) : DecodeResult :=
  { dataPtr := junk.dataPtr, dataSize := junk.dataSize, width := junk.width
    height := junk.height, depth := junk.depth, channels := junk.channels
    dataType := ""
    metadata := { junk.metadata with
      colorPrimaries := "", transferFunction := "", matrixCoefficients := "" }
    error := "Unsupported float format" }

/-- The statuses JxlDecoderProcessInput can report among those the bridge
dispatches on; the behavior's event list is the sequence of statuses the
successive ProcessInput calls return. -/
inductive Status where
  | statusError
  | needMoreInput
  | basicInfo
  | colorEncoding
  | needImageOutBuffer
  | fullImage
  | success
  deriving DecidableEq

/-- Backend outcomes for one jxl decode call.  iccProfileData is the ICC
profile the decoder would deliver (GetICCProfileSize reports its length);
colorEnc is some when GetColorAsEncodedProfile succeeds. -/
structure DecodeBehavior where
  createOk : Bool
  subscribeOk : Bool
  events : List Status
  getBasicInfoOk : Bool
  info : BasicInfo
  iccSizeOk : Bool
  iccProfileData : List Nat
  getIccOk : Bool
  colorEnc : Option ColorEncoding
  outBufferSizeOk : Bool
  bufferSize : Nat
  setOutBufferOk : Bool
  outMalloc : Option Nat
  iccMalloc : Option Nat
  junk : DecodeResult
  deriving DecidableEq

/-- Decode loop state: the partially filled result, the captured ICC
vector, the captured color encoding (mirrors the hasColorEnc flag plus the
colorEnc local) and the pixels vector size. -/
structure LoopState where
  result : DecodeResult
  iccProfile : List Nat
  colorEnc : Option ColorEncoding
  pixelsSize : Nat
  deriving DecidableEq

/-- The JXL_DEC_NEED_IMAGE_OUT_BUFFER branch of the decode loop: select the
output sample type from the source's exponent-bits field, updating depth
and dataType, or fail on an unsupported float layout; that failure returns
the default-constructed errorResult, whose scalar members are
indeterminate (see unsupportedFloatResult). -/
def outBufferUpdate (info : BasicInfo) (junk r : DecodeResult) :
    Except DecodeResult DecodeResult :=
  if 0 < info.exponentBitsPerSample then
    if info.exponentBitsPerSample = 5 ∧ info.bitsPerSample = 16 then
      Except.ok { r with depth := 16, dataType := "float16" }
    else if info.exponentBitsPerSample = 8 ∧ info.bitsPerSample = 32 then
      Except.ok { r with depth := 32, dataType := "float32" }
    else
      Except.error (unsupportedFloatResult junk)
  else
    let outDepth : Nat :=
      if info.bitsPerSample < 8 then 8
      else if 16 < info.bitsPerSample then 16
      else info.bitsPerSample
    Except.ok { r with depth := outDepth
                       dataType := if 8 < outDepth then "uint16" else "uint8" }

/-- The event-dispatch loop of decode in jxl_dec.cpp.  Except.error is an
early return out of the function; Except.ok is the break on JXL_DEC_SUCCESS.
none models the loop running out of ProcessInput outcomes without reaching
a terminal status (the C++ loop would keep calling ProcessInput forever).
The source reads the basic-info local inside the buffer branch; it is only
meaningful once the basicInfo event has been handled, which every event
sequence used in the theorems guarantees. -/
def decodeLoop (b : DecodeBehavior) :
    List Status → LoopState → Option (Except DecodeResult LoopState)
  | [], _ => none
  | ev :: rest, s =>
    match ev with
    | Status.statusError =>
      some (Except.error { s.result with error := "Decoder error" })
    | Status.needMoreInput =>
      some (Except.error { s.result with error := "Incomplete input data" })
    | Status.basicInfo =>
      if ¬ b.getBasicInfoOk then
        some (Except.error { s.result with error := "Failed to get basic info" })
      else
        let info := b.info
        let r := { s.result with
          width := info.xsize
          height := info.ysize
          depth := info.bitsPerSample
          channels := info.numColorChannels + (if 0 < info.alphaBits then 1 else 0)
          metadata := { s.result.metadata with
            isAnimated := info.haveAnimation
            frameCount := if info.haveAnimation then 0 else 1 } }
        decodeLoop b rest { s with result := r }
    | Status.colorEncoding =>
      let icc :=
        if b.iccSizeOk ∧ 0 < b.iccProfileData.length then
          (if b.getIccOk then b.iccProfileData else [])
        else s.iccProfile
      decodeLoop b rest { s with iccProfile := icc, colorEnc := b.colorEnc }
    | Status.needImageOutBuffer =>
      match outBufferUpdate b.info b.junk s.result with
      | Except.error e => some (Except.error e)
      | Except.ok r =>
        if ¬ b.outBufferSizeOk then
          some (Except.error { r with error := "Failed to get output buffer size" })
        else if ¬ b.setOutBufferOk then
          some (Except.error { r with error := "Failed to set output buffer" })
        else
          decodeLoop b rest { s with result := r, pixelsSize := b.bufferSize }
    | Status.fullImage => decodeLoop b rest s
    | Status.success => some (Except.ok s)

/-- decode from jxl_dec.cpp (the default single-threaded build, so the
parallel-runner block is compiled out).  none models nontermination of the
event loop; every concrete failure or success is some result. -/
def decode (b : DecodeBehavior) : Option DecodeResult :=
  let r0 := { emptyDecodeResult with depth := 8 }
  if ¬ b.createOk then some { r0 with error := "Failed to create JXL decoder" }
  else if ¬ b.subscribeOk then some { r0 with error := "Failed to subscribe to events" }
  else
    match decodeLoop b b.events
        { result := r0, iccProfile := [], colorEnc := none, pixelsSize := 0 } with
    | none => none
    | some (Except.error e) => some e
    | some (Except.ok s) =>
      match b.outMalloc with
      | none => some { s.result with error := "Failed to allocate output buffer" }
      | some p =>
        let r1 := { s.result with dataPtr := p, dataSize := s.pixelsSize }
        let meta1 := { r1.metadata with
          colorPrimaries :=
            match s.colorEnc with
            | some ce => colorPrimariesToString ce.primaries
            | none => "unknown"
          transferFunction :=
            match s.colorEnc with
            | some ce => transferFunctionToString ce.transferFunction
            | none => "unknown"
          matrixCoefficients := "identity"
          fullRange := true
          iccProfile :=
            if s.iccProfile ≠ [] then
              (match b.iccMalloc with
               | some _ => s.iccProfile
               | none => [])
            else []
          iccProfileSize :=
            if s.iccProfile ≠ [] then
              (match b.iccMalloc with
               | some _ => s.iccProfile.length
               | none => 0)
            else 0
          isHDR :=
            (match s.colorEnc with
             | some ce => isHDRTransfer ce.transferFunction
             | none => false) || decide (8 < r1.depth)
          maxCLL := 0
          maxPALL := 0
          masteringPresent := false }
        some { r1 with metadata := meta1 }

/-- Backend outcomes for one jxl getImageInfo call. -/
structure InfoBehavior where
  createOk : Bool
  subscribeOk : Bool
  events : List Status
  getBasicInfoOk : Bool
  info : BasicInfo
  iccSizeOk : Bool
  iccProfileData : List Nat
  getIccOk : Bool
  colorEnc : Option ColorEncoding
  iccMalloc : Option Nat
  deriving DecidableEq

/-- Loop state of getImageInfo: the partially filled info value plus the
captured color encoding. -/
structure InfoState where
  info : ImageInfo
  colorEnc : Option ColorEncoding
  deriving DecidableEq

/-- The event loop of getImageInfo in jxl_dec.cpp.  Early returns carry the
info value accumulated so far (this variant has no error field); the
colorEncoding branch captures the ICC profile (copying it to a malloc'd
buffer at once) and the encoded profile, then breaks. -/
def infoLoop (b : InfoBehavior) :
    List Status → InfoState → Option (Except ImageInfo InfoState)
  | [], _ => none
  | ev :: rest, s =>
    match ev with
    | Status.statusError => some (Except.error s.info)
    | Status.needMoreInput => some (Except.error s.info)
    | Status.basicInfo =>
      if ¬ b.getBasicInfoOk then some (Except.error s.info)
      else
        let info := b.info
        let i := { s.info with
          width := info.xsize
          height := info.ysize
          depth := info.bitsPerSample
          channels := info.numColorChannels + (if 0 < info.alphaBits then 1 else 0)
          metadata := { s.info.metadata with
            isAnimated := info.haveAnimation
            frameCount := if info.haveAnimation then 0 else 1 } }
        infoLoop b rest { s with info := i }
    | Status.colorEncoding =>
      let s1 :=
        if b.iccSizeOk ∧ 0 < b.iccProfileData.length ∧ b.getIccOk then
          match b.iccMalloc with
          | some _ =>
            { s with info := { s.info with metadata := { s.info.metadata with
                iccProfile := b.iccProfileData
                iccProfileSize := b.iccProfileData.length } } }
          | none => s
        else s
      some (Except.ok { s1 with colorEnc := b.colorEnc })
    | Status.success => some (Except.ok s)
    | _ => infoLoop b rest s

/-- getImageInfo from jxl_dec.cpp. -/
def getImageInfo (b : InfoBehavior) : Option ImageInfo :=
  let i0 : ImageInfo :=
    { width := 0, height := 0, depth := 0, channels := 0, metadata := emptyMetadata }
  if ¬ b.createOk then some i0
  else if ¬ b.subscribeOk then some i0
  else
    match infoLoop b b.events { info := i0, colorEnc := none } with
    | none => none
    | some (Except.error i) => some i
    | some (Except.ok s) =>
      let meta1 := { s.info.metadata with
        colorPrimaries :=
          match s.colorEnc with
          | some ce => colorPrimariesToString ce.primaries
          | none => "unknown"
        transferFunction :=
          match s.colorEnc with
          | some ce => transferFunctionToString ce.transferFunction
          | none => "unknown"
        matrixCoefficients := "identity"
        fullRange := true
        isHDR :=
          (match s.colorEnc with
           | some ce => isHDRTransfer ce.transferFunction
           | none => false) || decide (8 < s.info.depth)
        maxCLL := 0
        maxPALL := 0
        masteringPresent := false }
      some { s.info with metadata := meta1 }

/-- EncodeOptions from jxl_enc.cpp.  The float quality is modelled over the
rationals; the C++ float arithmetic of the quality mapping is exact except
for the representation of the literal 0.15f. -/
structure EncodeOptions where
  quality : Rat
  effort : Int
  lossless : Bool
  bitDepth : Int
  colorSpace : String
  transferFunction : String
  progressive : Bool
  maxThreads : Int
  dataType : String
  deriving DecidableEq

/-- EncodeResult from jxl_enc.cpp, minus timings. -/
structure EncodeResult where
  dataPtr : Nat
  dataSize : Nat
  error : String
  deriving DecidableEq

/-- qualityToDistance from jxl_enc.cpp: lossless collapses to distance 0,
otherwise quality is clamped into the closed interval from 0 to 100 and
mapped linearly onto the butteraugli distance scale. -/
def qualityToDistance (quality : Rat) (lossless : Bool) : Rat :=
  if lossless then 0
  else
    let q1 := if quality < 0 then 0 else quality
    let q2 := if 100 < q1 then 100 else q1
    (100 - q2) * (15 / 100)

/-- setColorEncoding from jxl_enc.cpp: start from the sRGB defaults written
by JxlColorEncodingSetToSRGB, then override primaries and transfer function
from the option strings. -/
def setColorEncoding (colorSpace transferFunction : String) : ColorEncoding :=
  let e0 : ColorEncoding :=
    { primaries := JXL_PRIMARIES_SRGB
      whitePoint := JXL_WHITE_POINT_D65
      transferFunction := JXL_TRANSFER_FUNCTION_SRGB }
  let e1 :=
    if colorSpace == "display-p3" || colorSpace == "p3" then
      { e0 with primaries := JXL_PRIMARIES_P3, whitePoint := JXL_WHITE_POINT_D65 }
    else if colorSpace == "rec2020" || colorSpace == "bt2020" then
      { e0 with primaries := JXL_PRIMARIES_2100, whitePoint := JXL_WHITE_POINT_D65 }
    else e0
  if transferFunction == "pq" then
    { e1 with transferFunction := JXL_TRANSFER_FUNCTION_PQ }
  else if transferFunction == "hlg" then
    { e1 with transferFunction := JXL_TRANSFER_FUNCTION_HLG }
  else if transferFunction == "linear" then
    { e1 with transferFunction := JXL_TRANSFER_FUNCTION_LINEAR }
  else e1

/-- The basic-info configuration handed to JxlEncoderSetBasicInfo. -/
structure BasicInfoCfg where
  xsize : Nat
  ysize : Nat
  bitsPerSample : Nat
  exponentBitsPerSample : Nat
  numColorChannels : Nat
  alphaBits : Nat
  deriving DecidableEq

/-- Trace of the calls the jxl encode pipeline makes into the backend.
encoderCreated records whether JxlEncoderMake was reached at all;
frameLossless whether JxlEncoderSetFrameLossless(TRUE) was called;
frameDistance the value passed to JxlEncoderSetFrameDistance; effortSet
the value passed for the effort frame setting. -/
structure EncCalls where
  encoderCreated : Bool := false
  basicInfo : Option BasicInfoCfg := none
  colorEnc : Option ColorEncoding := none
  frameLossless : Bool := false
  frameDistance : Option Rat := none
  effortSet : Option Int := none
  responsive : Bool := false
  deriving DecidableEq

/-- Backend outcomes for one jxl encode call (single-threaded build). -/
structure EncodeBehavior where
  createOk : Bool
  setBasicInfoOk : Bool
  setColorEncodingOk : Bool
  frameSettingsOk : Bool
  addFrameOk : Bool
  processOk : Bool
  outputSize : Nat
  outMalloc : Option Nat
  deriving DecidableEq

/-- The expected-size computation of jxl_enc.cpp: the width is cast to
size_t before the multiplications, so the product is formed at size_t
width; it is modelled as the exact natural-number product. -/
def expectedSizeT (width height channels bytesPerSample : Nat) : Nat :=
  width * height * channels * bytesPerSample

/-- The basic-info configuration the jxl encode pipeline computes from the
options and the input depth. -/
def basicInfoOf (w h c : Nat) (d : Int) (o : EncodeOptions) : BasicInfoCfg :=
  let bitsExp : Nat × Nat :=
    if o.dataType == "float32" then (32, 8)
    else if o.dataType == "float16" then (16, 5)
    else
      let d0 : Int := if 0 < o.bitDepth then o.bitDepth else d
      let d1 : Int := if d0 < 8 then 8 else d0
      let d2 : Int := if 16 < d1 then 16 else d1
      (d2.toNat, 0)
  { xsize := w, ysize := h, bitsPerSample := bitsExp.1
    exponentBitsPerSample := bitsExp.2
    numColorChannels := if 3 ≤ c then 3 else 1
    alphaBits := if c = 4 ∨ c = 2 then bitsExp.1 else 0 }

/-- The effort clamp the jxl encode pipeline applies. -/
def effortClamp (e : Int) : Int :=
  if 10 < (if e < 1 then 1 else e) then 10 else if e < 1 then 1 else e

/-- Closed form of the backend-call trace of a jxl encode run that reaches
the frame-settings stage. -/
def fullCalls (w h c : Nat) (d : Int) (o : EncodeOptions) : EncCalls :=
  { encoderCreated := true
    basicInfo := some (basicInfoOf w h c d o)
    colorEnc := some (setColorEncoding o.colorSpace o.transferFunction)
    frameLossless := o.lossless
    frameDistance := some (if o.lossless then 0 else qualityToDistance o.quality false)
    effortSet := some (effortClamp o.effort)
    responsive := o.progressive }

/-- encode from jxl_enc.cpp, returning the result together with the trace
of the configuration handed to the backend. -/
def encode (pixelsPtr pixelsSize width height channels : Nat) (inputBitDepth : Int)
    (options : EncodeOptions) (b : EncodeBehavior) : EncodeResult × EncCalls :=
  let calls0 : EncCalls := {}
  let err : String → EncodeResult := fun s => { dataPtr := 0, dataSize := 0, error := s }
  if pixelsPtr = 0 ∨ pixelsSize = 0 ∨ width = 0 ∨ height = 0 then
    (err "Invalid input: null pixels or zero dimensions", calls0)
  else if channels < 1 ∨ 4 < channels then
    (err "Invalid channels: must be 1-4", calls0)
  else
    let bytesPerSample : Nat :=
      if options.dataType == "float32" then 4
      else if options.dataType == "float16" || options.dataType == "uint16" then 2
      else 1
    if pixelsSize < expectedSizeT width height channels bytesPerSample then
      (err "Invalid input: pixel data too small", calls0)
    else
      let calls1 := { calls0 with encoderCreated := true }
      if ¬ b.createOk then (err "Failed to create JXL encoder", calls1)
      else
        let calls2 := { calls1 with
          basicInfo := some (basicInfoOf width height channels inputBitDepth options) }
        if ¬ b.setBasicInfoOk then (err "Failed to set basic info", calls2)
        else
          let calls3 := { calls2 with
            colorEnc := some (setColorEncoding options.colorSpace options.transferFunction) }
          if ¬ b.setColorEncodingOk then (err "Failed to set color encoding", calls3)
          else if ¬ b.frameSettingsOk then (err "Failed to create frame settings", calls3)
          else
            let calls4 :=
              if options.lossless then
                { calls3 with frameLossless := true, frameDistance := some 0 }
              else
                { calls3 with
                  frameDistance := some (qualityToDistance options.quality false) }
            let calls5 := { calls4 with
              effortSet := some (effortClamp options.effort)
              responsive := options.progressive }
            if ¬ b.addFrameOk then (err "Failed to add image frame", calls5)
            else if ¬ b.processOk then (err "Encoding failed", calls5)
            else
              match b.outMalloc with
              | none => (err "Failed to allocate output buffer", calls5)
              | some p =>
                ({ dataPtr := p, dataSize := b.outputSize, error := "" }, calls5)

/-- The integer-depth clamp applied in the output-buffer branch of decode. -/
def intDepthClamp (bits : Nat) : Nat :=
  if bits < 8 then 8 else if 16 < bits then 16 else bits

/-- The float layouts the decode loop accepts (plus all integer layouts);
anything else hits the unsupported-float early return. -/
def formatSupported (info : BasicInfo) : Prop :=
  info.exponentBitsPerSample = 0 ∨
    (info.exponentBitsPerSample = 5 ∧ info.bitsPerSample = 16) ∨
    (info.exponentBitsPerSample = 8 ∧ info.bitsPerSample = 32)

instance (info : BasicInfo) : Decidable (formatSupported info) := by
  unfold formatSupported; infer_instance

/-- The reported depth of a successful decode: 16/32 for the accepted float
layouts, the clamped source depth for integer layouts. -/
def canonicalDepth (info : BasicInfo) : Nat :=
  if 0 < info.exponentBitsPerSample then
    (if info.exponentBitsPerSample = 5 ∧ info.bitsPerSample = 16 then 16 else 32)
  else intDepthClamp info.bitsPerSample

/-- The reported dataType string of a successful decode. -/
def canonicalDataType (info : BasicInfo) : String :=
  if 0 < info.exponentBitsPerSample then
    (if info.exponentBitsPerSample = 5 ∧ info.bitsPerSample = 16 then "float16" else "float32")
  else if 8 < intDepthClamp info.bitsPerSample then "uint16" else "uint8"

/-- The ICC byte vector the decode loop holds after the colorEncoding
event. -/
def capturedIcc (b : DecodeBehavior) : List Nat :=
  if b.iccSizeOk ∧ 0 < b.iccProfileData.length then
    (if b.getIccOk then b.iccProfileData else [])
  else []

/-- Closed form of the result of a fully successful decode whose event
sequence is the canonical basicInfo, colorEncoding, needImageOutBuffer,
fullImage, success order. -/
def canonicalResult (b : DecodeBehavior) (p : Nat) : DecodeResult :=
  { dataPtr := p
    dataSize := b.bufferSize
    width := b.info.xsize
    height := b.info.ysize
    depth := canonicalDepth b.info
    channels := b.info.numColorChannels + (if 0 < b.info.alphaBits then 1 else 0)
    dataType := canonicalDataType b.info
    metadata :=
      { colorPrimaries :=
          match b.colorEnc with
          | some ce => colorPrimariesToString ce.primaries
          | none => "unknown"
        transferFunction :=
          match b.colorEnc with
          | some ce => transferFunctionToString ce.transferFunction
          | none => "unknown"
        matrixCoefficients := "identity"
        fullRange := true
        maxCLL := 0
        maxPALL := 0
        masteringPresent := false
        iccProfile :=
          if capturedIcc b ≠ [] then
            (match b.iccMalloc with
             | some _ => capturedIcc b
             | none => [])
          else []
        iccProfileSize :=
          if capturedIcc b ≠ [] then
            (match b.iccMalloc with
             | some _ => (capturedIcc b).length
             | none => 0)
          else 0
        isHDR :=
          (match b.colorEnc with
           | some ce => isHDRTransfer ce.transferFunction
           | none => false) || decide (8 < canonicalDepth b.info)
        isAnimated := b.info.haveAnimation
        frameCount := if b.info.haveAnimation then 0 else 1 }
    error := "" }

/-- Closed form of the info value a successful getImageInfo returns when
its event sequence is basicInfo then colorEncoding. -/
def canonicalInfo (b : InfoBehavior) : ImageInfo :=
  { width := b.info.xsize
    height := b.info.ysize
    depth := b.info.bitsPerSample
    channels := b.info.numColorChannels + (if 0 < b.info.alphaBits then 1 else 0)
    metadata :=
      { colorPrimaries :=
          match b.colorEnc with
          | some ce => colorPrimariesToString ce.primaries
          | none => "unknown"
        transferFunction :=
          match b.colorEnc with
          | some ce => transferFunctionToString ce.transferFunction
          | none => "unknown"
        matrixCoefficients := "identity"
        fullRange := true
        maxCLL := 0
        maxPALL := 0
        masteringPresent := false
        iccProfile :=
          if b.iccSizeOk ∧ 0 < b.iccProfileData.length ∧ b.getIccOk then
            (match b.iccMalloc with
             | some _ => b.iccProfileData
             | none => [])
          else []
        iccProfileSize :=
          if b.iccSizeOk ∧ 0 < b.iccProfileData.length ∧ b.getIccOk then
            (match b.iccMalloc with
             | some _ => b.iccProfileData.length
             | none => 0)
          else 0
        isHDR :=
          (match b.colorEnc with
           | some ce => isHDRTransfer ce.transferFunction
           | none => false) || decide (8 < b.info.bitsPerSample)
        isAnimated := b.info.haveAnimation
        frameCount := if b.info.haveAnimation then 0 else 1 } }

/-- The canonical event order libjxl reports to decode for a complete
single-frame bitstream with the subscribed event set. -/
def canonicalEvents : List Status :=
  [Status.basicInfo, Status.colorEncoding, Status.needImageOutBuffer,
    Status.fullImage, Status.success]

/-- The event order libjxl reports to getImageInfo (it breaks at the
colorEncoding event). -/
def infoEvents : List Status := [Status.basicInfo, Status.colorEncoding]

/-- A concrete basic-info block: 2x2, 8-bit integer, RGB, not animated. -/
def sampleInfo : BasicInfo :=
  { xsize := 2, ysize := 2, bitsPerSample := 8, exponentBitsPerSample := 0
    numColorChannels := 3, alphaBits := 0, haveAnimation := false }

/-- The same image but with a 1-bit integer sample depth (a depth JPEG XL
permits). -/
def lowDepthInfo : BasicInfo := { sampleInfo with bitsPerSample := 1 }

/-- A fully successful decode behavior over the canonical event order. -/
def okDecodeBehavior : DecodeBehavior :=
  { createOk := true, subscribeOk := true, events := canonicalEvents
    getBasicInfoOk := true, info := sampleInfo, iccSizeOk := true
    iccProfileData := [], getIccOk := true
    colorEnc := some { primaries := JXL_PRIMARIES_SRGB
                       whitePoint := JXL_WHITE_POINT_D65
                       transferFunction := JXL_TRANSFER_FUNCTION_SRGB }
    outBufferSizeOk := true, bufferSize := 12, setOutBufferOk := true
    outMalloc := some 4096, iccMalloc := some 2048, junk := emptyDecodeResult }

/-- The successful decode behavior for the 1-bit image. -/
def lowDepthDecodeBehavior : DecodeBehavior :=
  { okDecodeBehavior with info := lowDepthInfo }

/-- A fully successful getImageInfo behavior. -/
def okInfoBehavior : InfoBehavior :=
  { createOk := true, subscribeOk := true, events := infoEvents
    getBasicInfoOk := true, info := sampleInfo, iccSizeOk := true
    iccProfileData := [], getIccOk := true
    colorEnc := okDecodeBehavior.colorEnc, iccMalloc := some 2048 }

/-- The successful getImageInfo behavior for the 1-bit image. -/
def lowDepthInfoBehavior : InfoBehavior := { okInfoBehavior with info := lowDepthInfo }

/-- Concrete jxl encode options. -/
def defaultEncodeOptions : EncodeOptions :=
  { quality := 90, effort := 7, lossless := false, bitDepth := 8, colorSpace := "srgb"
    transferFunction := "srgb", progressive := false, maxThreads := 1, dataType := "uint8" }

/-- A fully successful jxl encode behavior. -/
def okEncodeBehavior : EncodeBehavior :=
  { createOk := true, setBasicInfoOk := true, setColorEncodingOk := true
    frameSettingsOk := true, addFrameOk := true, processOk := true
    outputSize := 100, outMalloc := some 8192 }

end Jxl

namespace Avif

/-- A concrete 2x2 8-bit RGB avifImage without ICC profile. -/
def sampleImage : AvifImage :=
  { width := 2, height := 2, depth := 8, yuvFormat := AVIF_PIXEL_FORMAT_YUV444
    hasAlphaPlane := false, colorPrimaries := AVIF_COLOR_PRIMARIES_BT709
    transferCharacteristics := AVIF_TRANSFER_CHARACTERISTICS_SRGB
    matrixCoefficients := AVIF_MATRIX_COEFFICIENTS_BT709, yuvRange := AVIF_RANGE_FULL
    maxCLL := 0, maxPALL := 0, icc := [] }

/-- A fully successful avif decode behavior. -/
def okDecodeBehavior : DecodeBehavior :=
  { createOk := true, ioResult := 0, parseResult := 0, nextImageResult := 0
    image := sampleImage, yuvToRgbResult := 0, rowBytes := 6, iccMallocOk := true
    outMalloc := some 4096, resultStr := fun _ => "unknown result" }

/-- A successful decode of an image that carries an ICC profile, with the
malloc for the profile copy failing. -/
def iccDropBehavior : DecodeBehavior :=
  { okDecodeBehavior with
    image := { sampleImage with icc := [1, 2, 3] }, iccMallocOk := false }

/-- A fully successful avif getImageInfo behavior. -/
def okInfoBehavior : InfoBehavior :=
  { createOk := true, ioResult := 0, parseResult := 0, image := sampleImage
    iccMallocOk := true }

/-- Concrete avif encode options (lossy defaults). -/
def defaultEncodeOptions : EncodeOptions :=
  { quality := 75, qualityAlpha := 75, speed := 6, tune := "default", lossless := false
    chromaSubsampling := 420, bitDepth := 8, colorSpace := "srgb"
    transferFunction := "srgb", maxThreads := 1 }

/-- The same options with an out-of-range speed value. -/
def wildSpeedOptions : EncodeOptions := { defaultEncodeOptions with speed := 99 }

/-- A fully successful avif encode behavior. -/
def okEncodeBehavior : EncodeBehavior :=
  { imageCreateOk := true, rgbToYuvResult := 0, encoderCreateOk := true
    writeResult := 0, output := [0, 1, 2], outMalloc := some 8192
    resultStr := fun _ => "unknown result" }

/-- The output-depth computation of decode: the caller-requested depth when
positive, otherwise the source depth, clamped into the interval from 8
to 16. -/
def clampDepth (t : Int) (d : Nat) : Int :=
  let d0 : Int := if 0 < t then t else (d : Int)
  let d1 : Int := if d0 < 8 then 8 else d0
  if 16 < d1 then 16 else d1

/-- Closed form of the result of a fully successful avif decode. -/
def successResult (b : DecodeBehavior) (t : Int) (p : Nat) : DecodeResult :=
  { dataPtr := p
    dataSize := b.rowBytes * b.image.height
    width := b.image.width
    height := b.image.height
    depth := (clampDepth t b.image.depth).toNat
    channels := (if b.image.yuvFormat = AVIF_PIXEL_FORMAT_YUV400 then 1 else 3) +
      (if b.image.hasAlphaPlane then 1 else 0)
    metadata := extractMetadata b.image b.iccMallocOk
    error := "" }

/-- Closed form of the info value of a fully successful avif getImageInfo. -/
def successInfo (b : InfoBehavior) : ImageInfo :=
  { width := b.image.width
    height := b.image.height
    depth := b.image.depth
    channels := (if b.image.yuvFormat = AVIF_PIXEL_FORMAT_YUV400 then 1 else 3) +
      (if b.image.hasAlphaPlane then 1 else 0)
    metadata := extractMetadata b.image b.iccMallocOk }

end Avif

/-! Helper lemmas shared by the claim theorems. -/

theorem avifTransferHdrString (tc : Nat) :
    (Avif.transferToString tc == "pq" || Avif.transferToString tc == "hlg") =
      Avif.isHDRTransfer tc := by
  have hval : Avif.isHDRTransfer tc = (decide (tc = 16) || decide (tc = 18)) := rfl
  unfold Avif.transferToString
  unfold Avif.AVIF_TRANSFER_CHARACTERISTICS_BT709
    Avif.AVIF_TRANSFER_CHARACTERISTICS_BT470M
    Avif.AVIF_TRANSFER_CHARACTERISTICS_BT470BG
    Avif.AVIF_TRANSFER_CHARACTERISTICS_BT601
    Avif.AVIF_TRANSFER_CHARACTERISTICS_SMPTE240
    Avif.AVIF_TRANSFER_CHARACTERISTICS_LINEAR
    Avif.AVIF_TRANSFER_CHARACTERISTICS_LOG100
    Avif.AVIF_TRANSFER_CHARACTERISTICS_LOG100_SQRT10
    Avif.AVIF_TRANSFER_CHARACTERISTICS_IEC61966
    Avif.AVIF_TRANSFER_CHARACTERISTICS_BT1361
    Avif.AVIF_TRANSFER_CHARACTERISTICS_SRGB
    Avif.AVIF_TRANSFER_CHARACTERISTICS_BT2020_10BIT
    Avif.AVIF_TRANSFER_CHARACTERISTICS_BT2020_12BIT
    Avif.AVIF_TRANSFER_CHARACTERISTICS_PQ
    Avif.AVIF_TRANSFER_CHARACTERISTICS_SMPTE428
    Avif.AVIF_TRANSFER_CHARACTERISTICS_HLG
  rw [hval]
  rcases eq_or_ne tc 1 with a1 | a1
  case inl => subst a1; rfl
  rw [if_neg a1]
  rcases eq_or_ne tc 4 with a4 | a4
  case inl => subst a4; rfl
  rw [if_neg a4]
  rcases eq_or_ne tc 5 with a5 | a5
  case inl => subst a5; rfl
  rw [if_neg a5]
  rcases eq_or_ne tc 6 with a6 | a6
  case inl => subst a6; rfl
  rw [if_neg a6]
  rcases eq_or_ne tc 7 with a7 | a7
  case inl => subst a7; rfl
  rw [if_neg a7]
  rcases eq_or_ne tc 8 with a8 | a8
  case inl => subst a8; rfl
  rw [if_neg a8]
  rcases eq_or_ne tc 9 with a9 | a9
  case inl => subst a9; rfl
  rw [if_neg a9]
  rcases eq_or_ne tc 10 with a10 | a10
  case inl => subst a10; rfl
  rw [if_neg a10]
  rcases eq_or_ne tc 11 with a11 | a11
  case inl => subst a11; rfl
  rw [if_neg a11]
  rcases eq_or_ne tc 12 with a12 | a12
  case inl => subst a12; rfl
  rw [if_neg a12]
  rcases eq_or_ne tc 13 with a13 | a13
  case inl => subst a13; rfl
  rw [if_neg a13]
  rcases eq_or_ne tc 14 with a14 | a14
  case inl => subst a14; rfl
  rw [if_neg a14]
  rcases eq_or_ne tc 15 with a15 | a15
  case inl => subst a15; rfl
  rw [if_neg a15]
  rcases eq_or_ne tc 16 with a16 | a16
  case inl => subst a16; rfl
  rw [if_neg a16]
  rcases eq_or_ne tc 17 with a17 | a17
  case inl => subst a17; rfl
  rw [if_neg a17]
  rcases eq_or_ne tc 18 with a18 | a18
  case inl => subst a18; rfl
  rw [if_neg a18]
  simp [a16, a18]

theorem jxlTransferHdrString (tf : Nat) :
    (Jxl.transferFunctionToString tf == "pq" || Jxl.transferFunctionToString tf == "hlg") =
      Jxl.isHDRTransfer tf := by
  have hval : Jxl.isHDRTransfer tf = (decide (tf = 16) || decide (tf = 18)) := rfl
  unfold Jxl.transferFunctionToString
  unfold Jxl.JXL_TRANSFER_FUNCTION_SRGB Jxl.JXL_TRANSFER_FUNCTION_LINEAR
    Jxl.JXL_TRANSFER_FUNCTION_PQ Jxl.JXL_TRANSFER_FUNCTION_HLG
    Jxl.JXL_TRANSFER_FUNCTION_709 Jxl.JXL_TRANSFER_FUNCTION_DCI
    Jxl.JXL_TRANSFER_FUNCTION_GAMMA
  rw [hval]
  rcases eq_or_ne tf 13 with a13 | a13
  case inl => subst a13; rfl
  rw [if_neg a13]
  rcases eq_or_ne tf 8 with a8 | a8
  case inl => subst a8; rfl
  rw [if_neg a8]
  rcases eq_or_ne tf 16 with a16 | a16
  case inl => subst a16; rfl
  rw [if_neg a16]
  rcases eq_or_ne tf 18 with a18 | a18
  case inl => subst a18; rfl
  rw [if_neg a18]
  rcases eq_or_ne tf 1 with a1 | a1
  case inl => subst a1; rfl
  rw [if_neg a1]
  rcases eq_or_ne tf 17 with a17 | a17
  case inl => subst a17; rfl
  rw [if_neg a17]
  rcases eq_or_ne tf 65535 with a65 | a65
  case inl => subst a65; rfl
  rw [if_neg a65]
  simp [a16, a18]

theorem intDepthClampGt8 (bits : Nat) : (8 < Jxl.intDepthClamp bits) ↔ (8 < bits) := by
  unfold Jxl.intDepthClamp
  split_ifs <;> omega

theorem canonicalDepthGt8 (info : Jxl.BasicInfo) (h : Jxl.formatSupported info) :
    (8 < Jxl.canonicalDepth info) ↔ (8 < info.bitsPerSample) := by
  unfold Jxl.canonicalDepth Jxl.intDepthClamp
  rcases h with h0 | ⟨h5, h16⟩ | ⟨h8, h32⟩
  · rw [if_neg (by omega)]
    split_ifs <;> omega
  · rw [if_pos (by omega), if_pos ⟨h5, h16⟩, h16]
  · rw [if_pos (by omega), if_neg (by simp [h8]), h32]

/-- A fully successful avif decode run equals its closed form. -/
theorem avifDecodeSuccess (b : Avif.DecodeBehavior) (t : Int) (p : Nat)
    (hcr : b.createOk = true) (hio : b.ioResult = 0) (hp : b.parseResult = 0)
    (hn : b.nextImageResult = 0) (hy : b.yuvToRgbResult = 0)
    (hm : b.outMalloc = some p) :
    Avif.decode b t = Avif.successResult b t p := by
  unfold Avif.decode Avif.successResult Avif.clampDepth
  rw [hcr, hio, hp, hn, hy, hm]
  simp

/-- A fully successful avif getImageInfo run equals its closed form. -/
theorem avifInfoSuccess (b : Avif.InfoBehavior)
    (hcr : b.createOk = true) (hio : b.ioResult = 0) (hp : b.parseResult = 0) :
    Avif.getImageInfo b = Avif.successInfo b := by
  unfold Avif.getImageInfo Avif.successInfo
  rw [hcr, hio, hp]
  simp

/-- A fully successful jxl decode run over the canonical event order equals
its closed form. -/
theorem jxlDecodeCanonical (b : Jxl.DecodeBehavior) (p : Nat)
    (hev : b.events = Jxl.canonicalEvents)
    (hcr : b.createOk = true) (hsub : b.subscribeOk = true)
    (hbi : b.getBasicInfoOk = true)
    (hbuf : b.outBufferSizeOk = true) (hset : b.setOutBufferOk = true)
    (hm : b.outMalloc = some p)
    (hfmt : Jxl.formatSupported b.info) :
    Jxl.decode b = some (Jxl.canonicalResult b p) := by
  unfold Jxl.decode
  rw [hcr, hsub, hev]
  unfold Jxl.canonicalEvents
  unfold Jxl.canonicalResult Jxl.canonicalDepth Jxl.canonicalDataType Jxl.capturedIcc
    Jxl.intDepthClamp
  simp only [Jxl.decodeLoop, Jxl.outBufferUpdate, hbi, hbuf, hset, hm, Bool.not_true,
    not_true_eq_false, if_false, ite_false, ite_true]
  rcases hfmt with h0 | ⟨h5, h16⟩ | ⟨h8, h32⟩
  · rw [h0]
    simp [Jxl.emptyDecodeResult, Jxl.emptyMetadata]
  · rw [h5, h16]
    simp [Jxl.emptyDecodeResult, Jxl.emptyMetadata]
  · rw [h8, h32]
    simp [Jxl.emptyDecodeResult, Jxl.emptyMetadata]

/-- A fully successful jxl getImageInfo run over its canonical event order
equals its closed form. -/
theorem jxlInfoCanonical (b : Jxl.InfoBehavior)
    (hev : b.events = Jxl.infoEvents)
    (hcr : b.createOk = true) (hsub : b.subscribeOk = true)
    (hbi : b.getBasicInfoOk = true) :
    Jxl.getImageInfo b = some (Jxl.canonicalInfo b) := by
  unfold Jxl.getImageInfo
  rw [hcr, hsub, hev]
  unfold Jxl.infoEvents
  unfold Jxl.canonicalInfo
  simp only [Jxl.infoLoop, hbi, Bool.not_true, not_true_eq_false, if_false,
    ite_false, ite_true]
  by_cases hicc : b.iccSizeOk ∧ 0 < b.iccProfileData.length ∧ b.getIccOk
  · rw [if_pos hicc, if_pos hicc, if_pos hicc]
    rcases hq : b.iccMalloc with _ | q
    · simp [hq, Jxl.emptyMetadata]
    · simp [hq, Jxl.emptyMetadata]
  · rw [if_neg hicc, if_neg hicc, if_neg hicc]
    simp [Jxl.emptyMetadata]

/-! Claim theorems. -/

/-- C4: for every successfully decoded image on either backend, the
reported isHDR metadata flag is true iff the reported transfer function is
PQ or HLG or the source sample depth exceeds 8; both backends compute the
same function hdrRule of the transfer-function string and sample depth. -/
theorem C4_isHDR_rule (image : Avif.AvifImage) (mok : Bool)
    (b : Jxl.DecodeBehavior) (p : Nat) (r : Jxl.DecodeResult)
    (hev : b.events = Jxl.canonicalEvents)
    (hcr : b.createOk = true) (hsub : b.subscribeOk = true)
    (hbi : b.getBasicInfoOk = true)
    (hbuf : b.outBufferSizeOk = true) (hset : b.setOutBufferOk = true)
    (hm : b.outMalloc = some p)
    (hfmt : Jxl.formatSupported b.info)
    (hdec : Jxl.decode b = some r) :
    (Avif.extractMetadata image mok).isHDR =
      hdrRule (Avif.extractMetadata image mok).transferFunction image.depth ∧
    r.metadata.isHDR = hdrRule r.metadata.transferFunction b.info.bitsPerSample := by
  constructor
  · simp only [Avif.extractMetadata, hdrRule]
    rw [avifTransferHdrString]
  · rw [jxlDecodeCanonical b p hev hcr hsub hbi hbuf hset hm hfmt] at hdec
    have hr : r = Jxl.canonicalResult b p := by
      injection hdec.symm
    subst hr
    rcases hce : b.colorEnc with _ | ce
    · simp only [Jxl.canonicalResult, hdrRule, hce]
      rw [decide_eq_decide.mpr (canonicalDepthGt8 b.info hfmt)]
      rfl
    · simp only [Jxl.canonicalResult, hdrRule, hce]
      rw [jxlTransferHdrString]
      rw [decide_eq_decide.mpr (canonicalDepthGt8 b.info hfmt)]

/-- Witness for C4 at a concrete decoded image on each backend. -/
theorem C4_isHDR_rule_witness :
    (Avif.extractMetadata Avif.sampleImage true).isHDR =
      hdrRule (Avif.extractMetadata Avif.sampleImage true).transferFunction
        Avif.sampleImage.depth ∧
    (Jxl.canonicalResult Jxl.okDecodeBehavior 4096).metadata.isHDR =
      hdrRule (Jxl.canonicalResult Jxl.okDecodeBehavior 4096).metadata.transferFunction
        Jxl.okDecodeBehavior.info.bitsPerSample :=
  C4_isHDR_rule Avif.sampleImage true Jxl.okDecodeBehavior 4096
    (Jxl.canonicalResult Jxl.okDecodeBehavior 4096)
    rfl rfl rfl rfl rfl rfl rfl (by decide) (by decide)

/-- C10: every successful jxl decode or getImageInfo reports frameCount 1
when the source is not animated and 0 when it is; the count is a function
of the animation flag alone, never of the actual frames. -/
theorem C10_frameCount (b : Jxl.DecodeBehavior) (p : Nat) (r : Jxl.DecodeResult)
    (ib : Jxl.InfoBehavior) (i : Jxl.ImageInfo)
    (hev : b.events = Jxl.canonicalEvents)
    (hcr : b.createOk = true) (hsub : b.subscribeOk = true)
    (hbi : b.getBasicInfoOk = true)
    (hbuf : b.outBufferSizeOk = true) (hset : b.setOutBufferOk = true)
    (hm : b.outMalloc = some p)
    (hfmt : Jxl.formatSupported b.info)
    (hdec : Jxl.decode b = some r)
    (hiev : ib.events = Jxl.infoEvents)
    (hicr : ib.createOk = true) (hisub : ib.subscribeOk = true)
    (hibi : ib.getBasicInfoOk = true)
    (hinf : Jxl.getImageInfo ib = some i) :
    r.metadata.isAnimated = b.info.haveAnimation ∧
    r.metadata.frameCount = (if b.info.haveAnimation then 0 else 1) ∧
    i.metadata.isAnimated = ib.info.haveAnimation ∧
    i.metadata.frameCount = (if ib.info.haveAnimation then 0 else 1) := by
  rw [jxlDecodeCanonical b p hev hcr hsub hbi hbuf hset hm hfmt] at hdec
  rw [jxlInfoCanonical ib hiev hicr hisub hibi] at hinf
  have hr : r = Jxl.canonicalResult b p := by injection hdec.symm
  have hi : i = Jxl.canonicalInfo ib := by injection hinf.symm
  subst hr
  subst hi
  unfold Jxl.canonicalResult Jxl.canonicalInfo
  simp

/-- Witness for C10 at concrete successful decode and getImageInfo runs. -/
theorem C10_frameCount_witness :
    (Jxl.canonicalResult Jxl.okDecodeBehavior 4096).metadata.isAnimated =
      Jxl.okDecodeBehavior.info.haveAnimation ∧
    (Jxl.canonicalResult Jxl.okDecodeBehavior 4096).metadata.frameCount =
      (if Jxl.okDecodeBehavior.info.haveAnimation then 0 else 1) ∧
    (Jxl.canonicalInfo Jxl.okInfoBehavior).metadata.isAnimated =
      Jxl.okInfoBehavior.info.haveAnimation ∧
    (Jxl.canonicalInfo Jxl.okInfoBehavior).metadata.frameCount =
      (if Jxl.okInfoBehavior.info.haveAnimation then 0 else 1) :=
  C10_frameCount Jxl.okDecodeBehavior 4096 (Jxl.canonicalResult Jxl.okDecodeBehavior 4096)
    Jxl.okInfoBehavior (Jxl.canonicalInfo Jxl.okInfoBehavior)
    rfl rfl rfl rfl rfl rfl rfl (by decide) (by decide) rfl rfl rfl rfl (by decide)

/-- The metadata a successful jxl decode reports agrees with the metadata
the corresponding getImageInfo run reports whenever the two calls observe
the same backend data: the decode-side depth clamp preserves the
(depth > 8) test inside isHDR, so even sources whose depth the clamp
changes report identical metadata. -/
theorem jxlMetadataAgree (b : Jxl.DecodeBehavior) (ib : Jxl.InfoBehavior) (p : Nat)
    (hinfo : ib.info = b.info) (hce : ib.colorEnc = b.colorEnc)
    (hsz : ib.iccSizeOk = b.iccSizeOk) (hpd : ib.iccProfileData = b.iccProfileData)
    (hgi : ib.getIccOk = b.getIccOk) (him : ib.iccMalloc = b.iccMalloc)
    (hfmt : Jxl.formatSupported b.info) :
    (Jxl.canonicalResult b p).metadata = (Jxl.canonicalInfo ib).metadata := by
  have hdep : decide (8 < Jxl.canonicalDepth b.info) =
      decide (8 < b.info.bitsPerSample) :=
    decide_eq_decide.mpr (canonicalDepthGt8 b.info hfmt)
  unfold Jxl.canonicalResult Jxl.canonicalInfo Jxl.capturedIcc
  simp only [hinfo, hce, hsz, hpd, hgi, him, hdep]
  by_cases h1 : b.iccSizeOk = true ∧ 0 < b.iccProfileData.length
  · by_cases h2 : b.getIccOk = true
    · have hne : b.iccProfileData ≠ [] := by
        intro hnil
        rw [hnil] at h1
        simp at h1
      simp [h1, h2, hne]
    · have h3 : ¬ (b.iccSizeOk = true ∧ 0 < b.iccProfileData.length ∧ b.getIccOk = true) := by
        tauto
      simp [h1, h2, h3]
  · have h3 : ¬ (b.iccSizeOk = true ∧ 0 < b.iccProfileData.length ∧ b.getIccOk = true) := by
      tauto
    simp [h1, h3]

/-- C1 (amended): for every input successfully handled by both calls,
getImageInfo and decode (default target depth and thread count) report the
same width, height, channel count and metadata on both backends, with no
restriction on the source depth; the depth agrees exactly when the source
depth survives the decode-side clamp, that is when the avif source depth
lies in the interval from 8 to 16 (always true of the valid AVIF depths 8,
10 and 12) and when the jxl integer source depth lies in that interval
(the accepted float layouts always agree). -/
theorem C1_decode_info_agree (db : Avif.DecodeBehavior) (aib : Avif.InfoBehavior) (q : Nat)
    (b : Jxl.DecodeBehavior) (ib : Jxl.InfoBehavior) (p : Nat)
    (r : Jxl.DecodeResult) (i : Jxl.ImageInfo)
    (hacr : db.createOk = true) (haio : db.ioResult = 0) (hapa : db.parseResult = 0)
    (hanx : db.nextImageResult = 0) (hayu : db.yuvToRgbResult = 0)
    (ham : db.outMalloc = some q)
    (hicr2 : aib.createOk = true) (hiio : aib.ioResult = 0) (hipa : aib.parseResult = 0)
    (himg : aib.image = db.image) (hmok : aib.iccMallocOk = db.iccMallocOk)
    (hev : b.events = Jxl.canonicalEvents)
    (hcr : b.createOk = true) (hsub : b.subscribeOk = true)
    (hbi : b.getBasicInfoOk = true)
    (hbuf : b.outBufferSizeOk = true) (hset : b.setOutBufferOk = true)
    (hm : b.outMalloc = some p)
    (hfmt : Jxl.formatSupported b.info)
    (hdec : Jxl.decode b = some r)
    (hiev : ib.events = Jxl.infoEvents)
    (hicr : ib.createOk = true) (hisub : ib.subscribeOk = true)
    (hibi : ib.getBasicInfoOk = true)
    (hinf : Jxl.getImageInfo ib = some i)
    (hinfo : ib.info = b.info) (hce : ib.colorEnc = b.colorEnc)
    (hsz : ib.iccSizeOk = b.iccSizeOk) (hpd : ib.iccProfileData = b.iccProfileData)
    (hgi : ib.getIccOk = b.getIccOk) (him : ib.iccMalloc = b.iccMalloc) :
    (Avif.decode db 0).width = (Avif.getImageInfo aib).width ∧
    (Avif.decode db 0).height = (Avif.getImageInfo aib).height ∧
    (8 ≤ db.image.depth → db.image.depth ≤ 16 →
      (Avif.decode db 0).depth = (Avif.getImageInfo aib).depth) ∧
    (Avif.decode db 0).channels = (Avif.getImageInfo aib).channels ∧
    (Avif.decode db 0).metadata = (Avif.getImageInfo aib).metadata ∧
    r.width = i.width ∧ r.height = i.height ∧
    ((b.info.exponentBitsPerSample = 0 →
        8 ≤ b.info.bitsPerSample ∧ b.info.bitsPerSample ≤ 16) →
      r.depth = i.depth) ∧
    r.channels = i.channels ∧ r.metadata = i.metadata := by
  rw [avifDecodeSuccess db 0 q hacr haio hapa hanx hayu ham]
  rw [avifInfoSuccess aib hicr2 hiio hipa]
  rw [jxlDecodeCanonical b p hev hcr hsub hbi hbuf hset hm hfmt] at hdec
  rw [jxlInfoCanonical ib hiev hicr hisub hibi] at hinf
  have hr : r = Jxl.canonicalResult b p := by injection hdec.symm
  have hi : i = Jxl.canonicalInfo ib := by injection hinf.symm
  subst hr
  subst hi
  refine ⟨?_, ?_, ?_, ?_, ?_, ?_, ?_, ?_, ?_, ?_⟩
  · simp [Avif.successResult, Avif.successInfo, himg]
  · simp [Avif.successResult, Avif.successInfo, himg]
  · intro hd8 hd16
    simp only [Avif.successResult, Avif.successInfo, himg]
    unfold Avif.clampDepth
    simp only []
    rw [if_neg (by omega)]
    rw [if_neg (by omega), if_neg (by omega)]
    omega
  · simp [Avif.successResult, Avif.successInfo, himg]
  · simp [Avif.successResult, Avif.successInfo, himg, hmok]
  · simp [Jxl.canonicalResult, Jxl.canonicalInfo, hinfo]
  · simp [Jxl.canonicalResult, Jxl.canonicalInfo, hinfo]
  · intro hjd
    have hd : Jxl.canonicalDepth b.info = b.info.bitsPerSample := by
      unfold Jxl.canonicalDepth Jxl.intDepthClamp
      rcases hfmt with h0 | ⟨h5, h16⟩ | ⟨h8, h32⟩
      · rcases hjd h0 with ⟨hlo, hhi⟩
        rw [if_neg (by omega), if_neg (by omega), if_neg (by omega)]
      · rw [if_pos (by omega), if_pos ⟨h5, h16⟩, h16]
      · rw [if_pos (by omega), if_neg (by simp [h8]), h32]
    simp only [Jxl.canonicalResult, Jxl.canonicalInfo, hinfo, hd]
  · simp [Jxl.canonicalResult, Jxl.canonicalInfo, hinfo]
  · exact jxlMetadataAgree b ib p hinfo hce hsz hpd hgi him hfmt

/-- Witness for C1 at concrete matching runs on both backends. -/
theorem C1_decode_info_agree_witness :
    (Avif.decode Avif.okDecodeBehavior 0).width =
      (Avif.getImageInfo Avif.okInfoBehavior).width ∧
    (Avif.decode Avif.okDecodeBehavior 0).height =
      (Avif.getImageInfo Avif.okInfoBehavior).height ∧
    (8 ≤ Avif.okDecodeBehavior.image.depth → Avif.okDecodeBehavior.image.depth ≤ 16 →
      (Avif.decode Avif.okDecodeBehavior 0).depth =
        (Avif.getImageInfo Avif.okInfoBehavior).depth) ∧
    (Avif.decode Avif.okDecodeBehavior 0).channels =
      (Avif.getImageInfo Avif.okInfoBehavior).channels ∧
    (Avif.decode Avif.okDecodeBehavior 0).metadata =
      (Avif.getImageInfo Avif.okInfoBehavior).metadata ∧
    (Jxl.canonicalResult Jxl.okDecodeBehavior 4096).width =
      (Jxl.canonicalInfo Jxl.okInfoBehavior).width ∧
    (Jxl.canonicalResult Jxl.okDecodeBehavior 4096).height =
      (Jxl.canonicalInfo Jxl.okInfoBehavior).height ∧
    ((Jxl.okDecodeBehavior.info.exponentBitsPerSample = 0 →
        8 ≤ Jxl.okDecodeBehavior.info.bitsPerSample ∧
          Jxl.okDecodeBehavior.info.bitsPerSample ≤ 16) →
      (Jxl.canonicalResult Jxl.okDecodeBehavior 4096).depth =
        (Jxl.canonicalInfo Jxl.okInfoBehavior).depth) ∧
    (Jxl.canonicalResult Jxl.okDecodeBehavior 4096).channels =
      (Jxl.canonicalInfo Jxl.okInfoBehavior).channels ∧
    (Jxl.canonicalResult Jxl.okDecodeBehavior 4096).metadata =
      (Jxl.canonicalInfo Jxl.okInfoBehavior).metadata :=
  C1_decode_info_agree Avif.okDecodeBehavior Avif.okInfoBehavior 4096
    Jxl.okDecodeBehavior Jxl.okInfoBehavior 4096
    (Jxl.canonicalResult Jxl.okDecodeBehavior 4096) (Jxl.canonicalInfo Jxl.okInfoBehavior)
    rfl rfl rfl rfl rfl rfl rfl rfl rfl rfl rfl
    rfl rfl rfl rfl rfl rfl rfl (by decide) (by decide)
    rfl rfl rfl rfl (by decide)
    rfl rfl rfl rfl rfl rfl

/-- C1 counterexample: a valid 1-bit-depth JPEG-XL source decodes with
reported depth 8 (the converted output depth) while getImageInfo reports
the source depth 1, so the two calls do not return the same depth. -/
theorem C1_depth_counterexample :
    (Jxl.decode Jxl.lowDepthDecodeBehavior).map Jxl.DecodeResult.error = some "" ∧
    (Jxl.decode Jxl.lowDepthDecodeBehavior).map Jxl.DecodeResult.depth = some 8 ∧
    (Jxl.getImageInfo Jxl.lowDepthInfoBehavior).map Jxl.ImageInfo.depth = some 1 := by
  refine ⟨?_, ?_, ?_⟩ <;> decide

/-- C3 (amended): on both backends every validation rejection happens
before any backend object is constructed (the call trace stays empty) and
returns a non-empty error with zero dataSize; the channel-count and
buffer-size violations each carry their own distinct message, but
null/empty pixel input, zero width and zero height all share one message
rather than each having a distinct one. -/
theorem C3_validation :
    (∀ (ptr size w h c : Nat) (d : Int) (o : Avif.EncodeOptions) (be : Avif.EncodeBehavior),
      ptr = 0 ∨ size = 0 ∨ w = 0 ∨ h = 0 →
      (Avif.encode ptr size w h c d o be).1.error =
          "Invalid input: null pixels or zero dimensions" ∧
        (Avif.encode ptr size w h c d o be).1.dataSize = 0 ∧
        (Avif.encode ptr size w h c d o be).2 = {}) ∧
    (∀ (ptr size w h c : Nat) (d : Int) (o : Avif.EncodeOptions) (be : Avif.EncodeBehavior),
      ¬(ptr = 0 ∨ size = 0 ∨ w = 0 ∨ h = 0) → c ≠ 3 → c ≠ 4 →
      (Avif.encode ptr size w h c d o be).1.error =
          "Invalid channels: must be 3 (RGB) or 4 (RGBA)" ∧
        (Avif.encode ptr size w h c d o be).1.dataSize = 0 ∧
        (Avif.encode ptr size w h c d o be).2 = {}) ∧
    (∀ (ptr size w h c : Nat) (d : Int) (o : Avif.EncodeOptions) (be : Avif.EncodeBehavior),
      ¬(ptr = 0 ∨ size = 0 ∨ w = 0 ∨ h = 0) → (c = 3 ∨ c = 4) →
      size < Avif.expectedSizeU32 w h c (if 8 < d then 2 else 1) →
      (Avif.encode ptr size w h c d o be).1.error = "Invalid input: pixel data too small" ∧
        (Avif.encode ptr size w h c d o be).1.dataSize = 0 ∧
        (Avif.encode ptr size w h c d o be).2 = {}) ∧
    (∀ (ptr size w h c : Nat) (d : Int) (o : Jxl.EncodeOptions) (be : Jxl.EncodeBehavior),
      ptr = 0 ∨ size = 0 ∨ w = 0 ∨ h = 0 →
      (Jxl.encode ptr size w h c d o be).1.error =
          "Invalid input: null pixels or zero dimensions" ∧
        (Jxl.encode ptr size w h c d o be).1.dataSize = 0 ∧
        (Jxl.encode ptr size w h c d o be).2 = {}) ∧
    (∀ (ptr size w h c : Nat) (d : Int) (o : Jxl.EncodeOptions) (be : Jxl.EncodeBehavior),
      ¬(ptr = 0 ∨ size = 0 ∨ w = 0 ∨ h = 0) → (c < 1 ∨ 4 < c) →
      (Jxl.encode ptr size w h c d o be).1.error = "Invalid channels: must be 1-4" ∧
        (Jxl.encode ptr size w h c d o be).1.dataSize = 0 ∧
        (Jxl.encode ptr size w h c d o be).2 = {}) ∧
    (∀ (ptr size w h c : Nat) (d : Int) (o : Jxl.EncodeOptions) (be : Jxl.EncodeBehavior),
      ¬(ptr = 0 ∨ size = 0 ∨ w = 0 ∨ h = 0) → ¬(c < 1 ∨ 4 < c) →
      size < Jxl.expectedSizeT w h c
        (if o.dataType == "float32" then 4
         else if o.dataType == "float16" || o.dataType == "uint16" then 2 else 1) →
      (Jxl.encode ptr size w h c d o be).1.error = "Invalid input: pixel data too small" ∧
        (Jxl.encode ptr size w h c d o be).1.dataSize = 0 ∧
        (Jxl.encode ptr size w h c d o be).2 = {}) ∧
    ("Invalid input: null pixels or zero dimensions" ≠
        "Invalid channels: must be 3 (RGB) or 4 (RGBA)" ∧
      "Invalid input: null pixels or zero dimensions" ≠ "Invalid input: pixel data too small" ∧
      "Invalid channels: must be 3 (RGB) or 4 (RGBA)" ≠
        "Invalid input: pixel data too small" ∧
      "Invalid input: null pixels or zero dimensions" ≠ "Invalid channels: must be 1-4" ∧
      "Invalid channels: must be 1-4" ≠ "Invalid input: pixel data too small") := by
  refine ⟨?_, ?_, ?_, ?_, ?_, ?_, ?_⟩
  · intro ptr size w h c d o be hv
    simp [Avif.encode, hv]
  · intro ptr size w h c d o be hv h3 h4
    simp [Avif.encode, hv, h3, h4]
  · intro ptr size w h c d o be hv hc hsz
    have hc2 : ¬(c ≠ 3 ∧ c ≠ 4) := by tauto
    simp only [Avif.encode, if_neg hv, if_neg hc2, if_pos hsz]
    exact ⟨trivial, trivial, trivial⟩
  · intro ptr size w h c d o be hv
    simp [Jxl.encode, hv]
  · intro ptr size w h c d o be hv hc
    simp only [Jxl.encode, if_neg hv, if_pos hc]
    exact ⟨trivial, trivial, trivial⟩
  · intro ptr size w h c d o be hv hc hsz
    simp only [Jxl.encode, if_neg hv, if_neg hc, if_pos hsz]
    exact ⟨trivial, trivial, trivial⟩
  · refine ⟨?_, ?_, ?_, ?_, ?_⟩ <;> decide

/-- Witness for C3: the shared-message clause at a concrete zero-width
input and the size clause at a concrete undersized buffer. -/
theorem C3_validation_witness :
    ((Avif.encode 1 100 0 5 3 8 Avif.defaultEncodeOptions Avif.okEncodeBehavior).1.error =
        "Invalid input: null pixels or zero dimensions" ∧
      (Avif.encode 1 100 0 5 3 8 Avif.defaultEncodeOptions Avif.okEncodeBehavior).1.dataSize = 0 ∧
      (Avif.encode 1 100 0 5 3 8 Avif.defaultEncodeOptions Avif.okEncodeBehavior).2 = {}) ∧
    ((Jxl.encode 1 2 4 4 3 8 Jxl.defaultEncodeOptions Jxl.okEncodeBehavior).1.error =
        "Invalid input: pixel data too small" ∧
      (Jxl.encode 1 2 4 4 3 8 Jxl.defaultEncodeOptions Jxl.okEncodeBehavior).1.dataSize = 0 ∧
      (Jxl.encode 1 2 4 4 3 8 Jxl.defaultEncodeOptions Jxl.okEncodeBehavior).2 = {}) :=
  ⟨C3_validation.1 1 100 0 5 3 8 Avif.defaultEncodeOptions Avif.okEncodeBehavior
      (by decide),
   C3_validation.2.2.2.2.2.1 1 2 4 4 3 8 Jxl.defaultEncodeOptions Jxl.okEncodeBehavior
      (by decide) (by decide) (by decide)⟩

/-- C3 counterexample: a zero-width input and a zero-height input are
rejected with the identical message, so the listed rejection categories are
not each matched with a distinct error string. -/
theorem C3_distinct_counterexample :
    (Avif.encode 1 100 0 5 3 8 Avif.defaultEncodeOptions Avif.okEncodeBehavior).1.error =
      (Avif.encode 1 100 5 0 3 8 Avif.defaultEncodeOptions Avif.okEncodeBehavior).1.error ∧
    (Avif.encode 1 100 0 5 3 8 Avif.defaultEncodeOptions Avif.okEncodeBehavior).1.error ≠ "" := by
  refine ⟨?_, ?_⟩ <;> decide

/-- An avif encode run that passes the validation gate records the
image-creation arguments, whatever the later stage outcomes are. -/
theorem avifEncodeImageArgs (ptr size w h c : Nat) (d : Int) (o : Avif.EncodeOptions)
    (be : Avif.EncodeBehavior)
    (hv : ¬(ptr = 0 ∨ size = 0 ∨ w = 0 ∨ h = 0))
    (hc : ¬(c ≠ 3 ∧ c ≠ 4))
    (hsz : ¬ size < Avif.expectedSizeU32 w h c (if 8 < d then 2 else 1)) :
    (Avif.encode ptr size w h c d o be).2.imageArgs =
      some ⟨w, h, Avif.encodeDepth o, Avif.chosenYuvFormat o⟩ := by
  simp only [Avif.encode, if_neg hv, if_neg hc, if_neg hsz]
  by_cases h1 : be.imageCreateOk = true <;>
    by_cases h2 : be.rgbToYuvResult = 0 <;>
      by_cases h3 : be.encoderCreateOk = true <;>
        by_cases h4 : be.writeResult = 0 <;>
          rcases hm : be.outMalloc with _ | q <;>
            simp [h1, h2, h3, h4, hm]

/-- An avif encode run that passes validation and reaches the encoder
configuration records the full backend-call trace. -/
theorem avifEncodeCallsFull (ptr size w h c : Nat) (d : Int) (o : Avif.EncodeOptions)
    (be : Avif.EncodeBehavior)
    (hv : ¬(ptr = 0 ∨ size = 0 ∨ w = 0 ∨ h = 0))
    (hc : ¬(c ≠ 3 ∧ c ≠ 4))
    (hsz : ¬ size < Avif.expectedSizeU32 w h c (if 8 < d then 2 else 1))
    (hic : be.imageCreateOk = true) (hrg : be.rgbToYuvResult = 0)
    (hec : be.encoderCreateOk = true) :
    (Avif.encode ptr size w h c d o be).2 = Avif.fullCalls w h o := by
  simp only [Avif.encode, if_neg hv, if_neg hc, if_neg hsz]
  by_cases hw : be.writeResult = 0 <;>
    rcases hm : be.outMalloc with _ | q <;>
      simp [Avif.fullCalls, hic, hrg, hec, hw, hm]

/-- A jxl encode run that passes validation and reaches the frame settings
records the full backend-call trace. -/
theorem jxlEncodeCallsFull (ptr size w h c : Nat) (d : Int) (o : Jxl.EncodeOptions)
    (be : Jxl.EncodeBehavior)
    (hv : ¬(ptr = 0 ∨ size = 0 ∨ w = 0 ∨ h = 0))
    (hc : ¬(c < 1 ∨ 4 < c))
    (hsz : ¬ size < Jxl.expectedSizeT w h c
      (if o.dataType == "float32" then 4
       else if o.dataType == "float16" || o.dataType == "uint16" then 2 else 1))
    (hcr : be.createOk = true) (hsb : be.setBasicInfoOk = true)
    (hsc : be.setColorEncodingOk = true) (hfs : be.frameSettingsOk = true) :
    (Jxl.encode ptr size w h c d o be).2 = Jxl.fullCalls w h c d o := by
  simp only [Jxl.encode, if_neg hv, if_neg hc, if_neg hsz]
  by_cases hl : o.lossless = true <;>
    by_cases ha : be.addFrameOk = true <;>
      by_cases hp : be.processOk = true <;>
        rcases hm : be.outMalloc with _ | q <;>
          simp [Jxl.fullCalls, hcr, hsb, hsc, hfs, hl, ha, hp, hm]

/-- C5: the quality mapping of both encode pipelines: with lossless set the
jxl pipeline enables the lossless frame flag and passes distance exactly 0,
otherwise it passes (100 - quality) * 0.15 with quality first clamped into
the interval from 0 to 100; with lossless set the avif pipeline passes the
exact lossless sentinel for both quality and qualityAlpha, otherwise both
caller values pass through on the direct 0-100 scale. -/
theorem C5_quality_mapping :
    (∀ (ptr size w h c : Nat) (d : Int) (o : Jxl.EncodeOptions) (be : Jxl.EncodeBehavior),
      ¬(ptr = 0 ∨ size = 0 ∨ w = 0 ∨ h = 0) → ¬(c < 1 ∨ 4 < c) →
      ¬ size < Jxl.expectedSizeT w h c
        (if o.dataType == "float32" then 4
         else if o.dataType == "float16" || o.dataType == "uint16" then 2 else 1) →
      be.createOk = true → be.setBasicInfoOk = true → be.setColorEncodingOk = true →
      be.frameSettingsOk = true →
      (o.lossless = true →
        (Jxl.encode ptr size w h c d o be).2.frameLossless = true ∧
        (Jxl.encode ptr size w h c d o be).2.frameDistance = some 0) ∧
      (o.lossless = false →
        (Jxl.encode ptr size w h c d o be).2.frameLossless = false ∧
        (Jxl.encode ptr size w h c d o be).2.frameDistance =
          some ((100 -
            (if 100 < (if o.quality < 0 then 0 else o.quality) then 100
             else if o.quality < 0 then 0 else o.quality)) * (15 / 100)))) ∧
    (∀ (ptr size w h c : Nat) (d : Int) (o : Avif.EncodeOptions) (be : Avif.EncodeBehavior),
      ¬(ptr = 0 ∨ size = 0 ∨ w = 0 ∨ h = 0) → ¬(c ≠ 3 ∧ c ≠ 4) →
      ¬ size < Avif.expectedSizeU32 w h c (if 8 < d then 2 else 1) →
      be.imageCreateOk = true → be.rgbToYuvResult = 0 → be.encoderCreateOk = true →
      (o.lossless = true →
        ((Avif.encode ptr size w h c d o be).2.encoderCfg).map Avif.EncoderCfg.quality =
            some Avif.AVIF_QUALITY_LOSSLESS ∧
          ((Avif.encode ptr size w h c d o be).2.encoderCfg).map Avif.EncoderCfg.qualityAlpha =
            some Avif.AVIF_QUALITY_LOSSLESS) ∧
      (o.lossless = false →
        ((Avif.encode ptr size w h c d o be).2.encoderCfg).map Avif.EncoderCfg.quality =
            some o.quality ∧
          ((Avif.encode ptr size w h c d o be).2.encoderCfg).map Avif.EncoderCfg.qualityAlpha =
            some o.qualityAlpha)) := by
  constructor
  · intro ptr size w h c d o be hv hc hsz hcr hsb hsc hfs
    rw [jxlEncodeCallsFull ptr size w h c d o be hv hc hsz hcr hsb hsc hfs]
    constructor
    · intro hl
      unfold Jxl.fullCalls
      rw [hl]
      exact ⟨rfl, rfl⟩
    · intro hl
      unfold Jxl.fullCalls
      rw [hl]
      refine ⟨rfl, ?_⟩
      unfold Jxl.qualityToDistance
      rfl
  · intro ptr size w h c d o be hv hc hsz hic hrg hec
    rw [avifEncodeCallsFull ptr size w h c d o be hv hc hsz hic hrg hec]
    constructor
    · intro hl
      unfold Avif.fullCalls Avif.encoderCfgOf
      rw [hl]
      exact ⟨rfl, rfl⟩
    · intro hl
      unfold Avif.fullCalls Avif.encoderCfgOf
      rw [hl]
      exact ⟨rfl, rfl⟩

/-- Witness for C5 at concrete lossy jxl and lossless avif encodes. -/
theorem C5_quality_mapping_witness :
    ((Jxl.encode 1 48 4 4 3 8 Jxl.defaultEncodeOptions Jxl.okEncodeBehavior).2.frameLossless =
        false ∧
      (Jxl.encode 1 48 4 4 3 8 Jxl.defaultEncodeOptions Jxl.okEncodeBehavior).2.frameDistance =
        some ((100 - (if 100 < (if (90 : Rat) < 0 then 0 else 90) then 100
          else if (90 : Rat) < 0 then 0 else 90)) * (15 / 100))) ∧
    (((Avif.encode 1 48 4 4 3 8 { Avif.defaultEncodeOptions with lossless := true }
          Avif.okEncodeBehavior).2.encoderCfg).map Avif.EncoderCfg.quality =
        some Avif.AVIF_QUALITY_LOSSLESS ∧
      ((Avif.encode 1 48 4 4 3 8 { Avif.defaultEncodeOptions with lossless := true }
          Avif.okEncodeBehavior).2.encoderCfg).map Avif.EncoderCfg.qualityAlpha =
        some Avif.AVIF_QUALITY_LOSSLESS) :=
  ⟨(C5_quality_mapping.1 1 48 4 4 3 8 Jxl.defaultEncodeOptions Jxl.okEncodeBehavior
      (by decide) (by decide) (by decide) rfl rfl rfl rfl).2 rfl,
   (C5_quality_mapping.2 1 48 4 4 3 8 { Avif.defaultEncodeOptions with lossless := true }
      Avif.okEncodeBehavior (by decide) (by decide) (by decide) rfl rfl rfl).1 rfl⟩

/-- C7 (amended): the jxl pipeline clamps effort into the interval from 1
to 10 before handing it to the backend, but the avif pipeline passes the
caller's speed through to the encoder unclamped, so out-of-range speed
values do reach the backend. -/
theorem C7_effort_speed :
    (∀ (ptr size w h c : Nat) (d : Int) (o : Jxl.EncodeOptions) (be : Jxl.EncodeBehavior),
      ¬(ptr = 0 ∨ size = 0 ∨ w = 0 ∨ h = 0) → ¬(c < 1 ∨ 4 < c) →
      ¬ size < Jxl.expectedSizeT w h c
        (if o.dataType == "float32" then 4
         else if o.dataType == "float16" || o.dataType == "uint16" then 2 else 1) →
      be.createOk = true → be.setBasicInfoOk = true → be.setColorEncodingOk = true →
      be.frameSettingsOk = true →
      (Jxl.encode ptr size w h c d o be).2.effortSet = some (Jxl.effortClamp o.effort) ∧
        1 ≤ Jxl.effortClamp o.effort ∧ Jxl.effortClamp o.effort ≤ 10) ∧
    (∀ (ptr size w h c : Nat) (d : Int) (o : Avif.EncodeOptions) (be : Avif.EncodeBehavior),
      ¬(ptr = 0 ∨ size = 0 ∨ w = 0 ∨ h = 0) → ¬(c ≠ 3 ∧ c ≠ 4) →
      ¬ size < Avif.expectedSizeU32 w h c (if 8 < d then 2 else 1) →
      be.imageCreateOk = true → be.rgbToYuvResult = 0 → be.encoderCreateOk = true →
      ((Avif.encode ptr size w h c d o be).2.encoderCfg).map Avif.EncoderCfg.speed =
        some o.speed) := by
  constructor
  · intro ptr size w h c d o be hv hc hsz hcr hsb hsc hfs
    rw [jxlEncodeCallsFull ptr size w h c d o be hv hc hsz hcr hsb hsc hfs]
    refine ⟨rfl, ?_, ?_⟩ <;>
      (unfold Jxl.effortClamp
       split_ifs <;> omega)
  · intro ptr size w h c d o be hv hc hsz hic hrg hec
    rw [avifEncodeCallsFull ptr size w h c d o be hv hc hsz hic hrg hec]
    rfl

/-- Witness for C7 at a concrete out-of-range jxl effort and the concrete
avif pass-through. -/
theorem C7_effort_speed_witness :
    ((Jxl.encode 1 48 4 4 3 8 { Jxl.defaultEncodeOptions with effort := 55 }
        Jxl.okEncodeBehavior).2.effortSet = some (Jxl.effortClamp 55) ∧
      1 ≤ Jxl.effortClamp 55 ∧ Jxl.effortClamp 55 ≤ 10) ∧
    ((Avif.encode 1 48 4 4 3 8 Avif.defaultEncodeOptions Avif.okEncodeBehavior).2.encoderCfg).map
        Avif.EncoderCfg.speed = some 6 :=
  ⟨C7_effort_speed.1 1 48 4 4 3 8 { Jxl.defaultEncodeOptions with effort := 55 }
      Jxl.okEncodeBehavior (by decide) (by decide) (by decide) rfl rfl rfl rfl,
   C7_effort_speed.2 1 48 4 4 3 8 Avif.defaultEncodeOptions Avif.okEncodeBehavior
      (by decide) (by decide) (by decide) rfl rfl rfl⟩

/-- C7 counterexample: an avif encode with speed 99 hands speed 99 to the
backend encoder, so the speed is not clamped into the valid range (whose
maximum, AVIF_SPEED_FASTEST, is 10). -/
theorem C7_speed_counterexample :
    ((Avif.encode 1 48 4 4 3 8 Avif.wildSpeedOptions Avif.okEncodeBehavior).2.encoderCfg).map
        Avif.EncoderCfg.speed = some 99 ∧ (10 : Int) < 99 := by
  refine ⟨?_, ?_⟩ <;> decide

/-- C8: the avif pixel format is 4:4:4 whenever lossless is set, whatever
subsampling was requested; without lossless, 444/422/400 map to the
matching formats and every other requested value maps to 4:2:0. -/
theorem C8_lossless_format (ptr size w h c : Nat) (d : Int) (o : Avif.EncodeOptions)
    (be : Avif.EncodeBehavior)
    (hv : ¬(ptr = 0 ∨ size = 0 ∨ w = 0 ∨ h = 0))
    (hc : ¬(c ≠ 3 ∧ c ≠ 4))
    (hsz : ¬ size < Avif.expectedSizeU32 w h c (if 8 < d then 2 else 1)) :
    (o.lossless = true →
      ((Avif.encode ptr size w h c d o be).2.imageArgs).map Avif.ImageArgs.yuvFormat =
        some Avif.AVIF_PIXEL_FORMAT_YUV444) ∧
    (o.lossless = false →
      (o.chromaSubsampling = 444 →
        ((Avif.encode ptr size w h c d o be).2.imageArgs).map Avif.ImageArgs.yuvFormat =
          some Avif.AVIF_PIXEL_FORMAT_YUV444) ∧
      (o.chromaSubsampling = 422 →
        ((Avif.encode ptr size w h c d o be).2.imageArgs).map Avif.ImageArgs.yuvFormat =
          some Avif.AVIF_PIXEL_FORMAT_YUV422) ∧
      (o.chromaSubsampling = 400 →
        ((Avif.encode ptr size w h c d o be).2.imageArgs).map Avif.ImageArgs.yuvFormat =
          some Avif.AVIF_PIXEL_FORMAT_YUV400) ∧
      (o.chromaSubsampling ≠ 444 → o.chromaSubsampling ≠ 422 → o.chromaSubsampling ≠ 400 →
        ((Avif.encode ptr size w h c d o be).2.imageArgs).map Avif.ImageArgs.yuvFormat =
          some Avif.AVIF_PIXEL_FORMAT_YUV420)) := by
  rw [avifEncodeImageArgs ptr size w h c d o be hv hc hsz]
  constructor
  · intro hl
    unfold Avif.chosenYuvFormat
    rw [hl]
    rfl
  · intro hl
    refine ⟨?_, ?_, ?_, ?_⟩
    · intro h444
      unfold Avif.chosenYuvFormat
      rw [hl, h444]
      rfl
    · intro h422
      unfold Avif.chosenYuvFormat
      rw [hl, if_neg (show ¬o.chromaSubsampling = 444 by omega), if_pos h422]
      rfl
    · intro h400
      unfold Avif.chosenYuvFormat
      rw [hl, if_neg (show ¬o.chromaSubsampling = 444 by omega),
        if_neg (show ¬o.chromaSubsampling = 422 by omega), if_pos h400]
      rfl
    · intro n444 n422 n400
      unfold Avif.chosenYuvFormat
      rw [hl, if_neg n444, if_neg n422, if_neg n400]
      rfl

/-- Witness for C8 at a concrete lossless encode that requested 4:2:0. -/
theorem C8_lossless_format_witness :
    ((Avif.encode 1 48 4 4 3 8 { Avif.defaultEncodeOptions with lossless := true }
        Avif.okEncodeBehavior).2.imageArgs).map Avif.ImageArgs.yuvFormat =
      some Avif.AVIF_PIXEL_FORMAT_YUV444 :=
  (C8_lossless_format 1 48 4 4 3 8 { Avif.defaultEncodeOptions with lossless := true }
      Avif.okEncodeBehavior (by decide) (by decide) (by decide)).1 rfl

/-- C6 (amended): on every call that reports ICC metadata - the avif
extractMetadata used by both avif decode and getImageInfo, the jxl decode,
and the jxl getImageInfo - the reported ICC profile size is 0 iff the
source had no profile or the bridge failed to obtain or copy it
(profile-size query, profile read, or the malloc of the copy failing);
whenever it is nonzero the returned buffer holds exactly the source
profile bytes. -/
theorem C6_icc_profile :
    (∀ (image : Avif.AvifImage) (mok : Bool),
      ((Avif.extractMetadata image mok).iccProfileSize = 0 ↔
        image.icc = [] ∨ mok = false) ∧
      (image.icc ≠ [] → mok = true →
        (Avif.extractMetadata image mok).iccProfile = image.icc ∧
        (Avif.extractMetadata image mok).iccProfileSize = image.icc.length)) ∧
    (∀ (b : Jxl.DecodeBehavior) (p : Nat) (r : Jxl.DecodeResult),
      b.events = Jxl.canonicalEvents → b.createOk = true → b.subscribeOk = true →
      b.getBasicInfoOk = true → b.outBufferSizeOk = true → b.setOutBufferOk = true →
      b.outMalloc = some p → Jxl.formatSupported b.info →
      Jxl.decode b = some r →
      (r.metadata.iccProfileSize = 0 ↔
        b.iccProfileData = [] ∨ b.iccSizeOk = false ∨ b.getIccOk = false ∨
          b.iccMalloc = none) ∧
      (b.iccProfileData ≠ [] → b.iccSizeOk = true → b.getIccOk = true →
        b.iccMalloc ≠ none →
        r.metadata.iccProfile = b.iccProfileData ∧
        r.metadata.iccProfileSize = b.iccProfileData.length)) ∧
    (∀ (ib : Jxl.InfoBehavior) (i : Jxl.ImageInfo),
      ib.events = Jxl.infoEvents → ib.createOk = true → ib.subscribeOk = true →
      ib.getBasicInfoOk = true →
      Jxl.getImageInfo ib = some i →
      (i.metadata.iccProfileSize = 0 ↔
        ib.iccProfileData = [] ∨ ib.iccSizeOk = false ∨ ib.getIccOk = false ∨
          ib.iccMalloc = none) ∧
      (ib.iccProfileData ≠ [] → ib.iccSizeOk = true → ib.getIccOk = true →
        ib.iccMalloc ≠ none →
        i.metadata.iccProfile = ib.iccProfileData ∧
        i.metadata.iccProfileSize = ib.iccProfileData.length)) := by
  refine ⟨?_, ?_, ?_⟩
  · intro image mok
    unfold Avif.extractMetadata
    by_cases hlen : 0 < image.icc.length
    · have hne : image.icc ≠ [] := by
        intro hnil
        rw [hnil] at hlen
        simp at hlen
      cases mok
      · simp [hlen, hne]
      · simp [hlen, hne, Nat.pos_iff_ne_zero.mp hlen]
    · have hnil : image.icc = [] := by
        rcases List.eq_nil_or_concat image.icc with hn | ⟨l, a, hcons⟩
        · exact hn
        · rw [hcons] at hlen
          simp at hlen
      simp [hlen, hnil]
  · intro b p r hev hcr hsub hbi hbuf hset hm hfmt hdec
    rw [jxlDecodeCanonical b p hev hcr hsub hbi hbuf hset hm hfmt] at hdec
    have hr : r = Jxl.canonicalResult b p := by injection hdec.symm
    subst hr
    unfold Jxl.canonicalResult Jxl.capturedIcc
    by_cases h1 : b.iccSizeOk = true ∧ 0 < b.iccProfileData.length
    · by_cases h2 : b.getIccOk = true
      · have hne : b.iccProfileData ≠ [] := by
          intro hnil
          rw [hnil] at h1
          simp at h1
        rcases hq : b.iccMalloc with _ | q
        · simp [h1, h2, hne, hq, Nat.pos_iff_ne_zero.mp h1.2]
        · simp [h1, h2, hne, hq, Nat.pos_iff_ne_zero.mp h1.2]
      · have hg : b.getIccOk = false := by
          cases hgq : b.getIccOk
          · rfl
          · exact absurd hgq h2
        simp [h1, h2, hg]
    · have hcase : b.iccProfileData = [] ∨ b.iccSizeOk = false := by
        by_cases hso : b.iccSizeOk = true
        · left
          rcases List.eq_nil_or_concat b.iccProfileData with hn | ⟨l, a, hcons⟩
          · exact hn
          · exfalso
            apply h1
            refine ⟨hso, ?_⟩
            rw [hcons]
            simp
        · right
          cases hsq : b.iccSizeOk
          · rfl
          · exact absurd hsq hso
      simp only [if_neg h1]
      constructor
      · constructor
        · intro _
          tauto
        · intro _
          rfl
      · intro hne hso hgi him
        exfalso
        rcases hcase with hn | hs
        · exact hne hn
        · rw [hso] at hs
          simp at hs
  · intro ib i hiev hicr hisub hibi hinf
    rw [jxlInfoCanonical ib hiev hicr hisub hibi] at hinf
    have hi : i = Jxl.canonicalInfo ib := by injection hinf.symm
    subst hi
    unfold Jxl.canonicalInfo
    by_cases h1 : ib.iccSizeOk = true ∧ 0 < ib.iccProfileData.length ∧ ib.getIccOk = true
    · have hne : ib.iccProfileData ≠ [] := by
        intro hnil
        rw [hnil] at h1
        simp at h1
      rcases hq : ib.iccMalloc with _ | q
      · simp [h1, hne, hq]
      · simp [h1, hne, hq, Nat.pos_iff_ne_zero.mp h1.2.1]
    · have hcase : ib.iccProfileData = [] ∨ ib.iccSizeOk = false ∨ ib.getIccOk = false := by
        by_cases hso : ib.iccSizeOk = true
        · by_cases hgo : ib.getIccOk = true
          · left
            rcases List.eq_nil_or_concat ib.iccProfileData with hn | ⟨l, a, hcons⟩
            · exact hn
            · exfalso
              apply h1
              refine ⟨hso, ?_, hgo⟩
              rw [hcons]
              simp
          · right
            right
            cases hgq : ib.getIccOk
            · rfl
            · exact absurd hgq hgo
        · right
          left
          cases hsq : ib.iccSizeOk
          · rfl
          · exact absurd hsq hso
      simp only [if_neg h1]
      constructor
      · constructor
        · intro _
          tauto
        · intro _
          trivial
      · intro hne hso hgi2 him2
        exfalso
        rcases hcase with hn | hs | hg
        · exact hne hn
        · rw [hso] at hs
          simp at hs
        · rw [hgi2] at hg
          simp at hg

/-- Witness for C6: a present three-byte profile with a succeeding copy is
returned verbatim with its exact size. -/
theorem C6_icc_profile_witness :
    (Avif.extractMetadata { Avif.sampleImage with icc := [1, 2, 3] } true).iccProfile =
        [1, 2, 3] ∧
      (Avif.extractMetadata { Avif.sampleImage with icc := [1, 2, 3] } true).iccProfileSize =
        3 :=
  ⟨((C6_icc_profile.1 { Avif.sampleImage with icc := [1, 2, 3] } true).2 (by decide) rfl).1,
    by
      have h := ((C6_icc_profile.1 { Avif.sampleImage with icc := [1, 2, 3] } true).2
        (by decide) rfl).2
      simpa using h⟩

/-- C6 counterexample: when the malloc for the profile copy fails, a decode
of an image that does carry an ICC profile still succeeds but reports
iccProfileSize 0, so a zero size does not imply the source had no
profile. -/
theorem C6_icc_counterexample :
    (Avif.decode Avif.iccDropBehavior 0).error = "" ∧
    Avif.iccDropBehavior.image.icc ≠ [] ∧
    (Avif.decode Avif.iccDropBehavior 0).metadata.iccProfileSize = 0 := by
  refine ⟨?_, ?_, ?_⟩ <;> decide

/-- C9: the avif size check multiplies width, height, channels and bytes
per channel in 32-bit arithmetic: for a 65536 x 65536 4-channel 8-bit image
the true required size is 2 to the 34th but the computed expected size
wraps to 0, so a 16-byte pixel buffer passes the size check and the
pipeline proceeds to the backend; the jxl variant widens to size_t before
multiplying and rejects the same buffer. -/
theorem C9_size_check_overflow :
    Avif.expectedSizeU32 65536 65536 4 1 = 0 ∧
    65536 * 65536 * 4 * 1 = 2 ^ 34 ∧
    (Avif.encode 1 16 65536 65536 4 8 Avif.defaultEncodeOptions
      Avif.okEncodeBehavior).1.error = "" ∧
    (Avif.encode 1 16 65536 65536 4 8 Avif.defaultEncodeOptions
      Avif.okEncodeBehavior).2.imageArgs ≠ none ∧
    Jxl.expectedSizeT 65536 65536 4 1 = 2 ^ 34 ∧
    (Jxl.encode 1 16 65536 65536 4 8 Jxl.defaultEncodeOptions Jxl.okEncodeBehavior).1.error =
      "Invalid input: pixel data too small" := by
  refine ⟨?_, ?_, ?_, ?_, ?_, ?_⟩ <;> decide

end JCodecs
